import Mathlib

/-!
Verification of the steering-document validator (`tools/validate-steering.py`).

The Python source is shallowly embedded: strings are Lean `String`s
(manipulated through their underlying `List Char`), YAML-decoded Python
values are the inductive `YamlValue`, the filesystem / `os.path` / `os.walk`
surface is an explicit environment record `OsEnv`, and the YAML library
(`yaml.safe_load`) is an explicit `parse` function argument.  Python
exceptions (`TypeError` raised by `in` / subscription on unsuitable values)
are modelled with an explicit `Option PyErr` "raised" channel; whitespace is
modelled as the ASCII whitespace characters, which is faithful for all
claims considered here.
-/

/-- ASCII whitespace, as stripped by Python `str.strip()` and matched by the
regex class in the patterns used by the validator. -/
def isPySpace (c : Char) : Bool :=
  c == ' ' || c == '\t' || c == '\n' || c == '\r' || c == '\x0b' || c == '\x0c'

/-- Boolean list-prefix test (Python `str.startswith` on char lists). -/
def listPre : List Char → List Char → Bool
  | [], _ => true
  | _ :: _, [] => false
  | a :: as, b :: bs => a == b && listPre as bs

/-- Drop the longest suffix whose characters satisfy `q`. -/
def dropWhileEndL (q : Char → Bool) (l : List Char) : List Char :=
  (l.reverse.dropWhile q).reverse

/-- Python `str.strip()` (no arguments): remove leading and trailing whitespace. -/
def pyStrip (s : String) : String :=
  ⟨dropWhileEndL isPySpace (s.data.dropWhile isPySpace)⟩

/-- Python `content.split('\n')` on the character list. -/
def splitNlChars : List Char → List (List Char)
  | [] => [[]]
  | c :: rest =>
    if c == '\n' then [] :: splitNlChars rest
    else
      match splitNlChars rest with
      | [] => [[c]]
      | l :: ls => (c :: l) :: ls

/-- Python `content.split('\n')`. -/
def splitNl (s : String) : List String :=
  (splitNlChars s.data).map (fun cs => ⟨cs⟩)

/-- Python `'\n'.join(lines)`. -/
def joinNl : List String → String
  | [] => ""
  | [s] => s
  | s :: rest => s ++ "\n" ++ joinNl rest

/-- Python `s.startswith(pre)`. -/
def pyStartsWith (pre s : String) : Bool :=
  listPre pre.data s.data

/-- Python `s.endswith(suf)`. -/
def pyEndsWith (suf s : String) : Bool :=
  listPre suf.data.reverse s.data.reverse

/-- Python `s.upper()` (ASCII). -/
def pyUpper (s : String) : String :=
  ⟨s.data.map Char.toUpper⟩

/-- String-level prefix test. -/
def strPre (a b : String) : Bool :=
  listPre a.data b.data

/-- Substring occurrence (Python `needle in haystack` for strings). -/
def hasSubL (n : List Char) : List Char → Bool
  | [] => listPre n []
  | c :: rest => listPre n (c :: rest) || hasSubL n rest

/-- Python `needle in haystack` for strings. -/
def hasSub (needle hay : String) : Bool :=
  hasSubL needle.data hay.data

/-- Case-insensitive list-prefix test (regex literal under `re.IGNORECASE`). -/
def ciPre : List Char → List Char → Bool
  | [], _ => true
  | _ :: _, [] => false
  | a :: as, b :: bs => (a.toLower == b.toLower) && ciPre as bs

/-- A match of the pattern `##\s+<phrase>` (under `re.IGNORECASE`) anchored at
the start of the given character list: `##`, then one or more whitespace
characters, then the phrase case-insensitively.  Because every phrase used
by the validator starts with a letter, consuming the maximal whitespace run
is equivalent to the regex engine's backtracking behaviour. -/
def sectionHere (ph : List Char) : List Char → Bool
  | '#' :: '#' :: rest =>
    let ws := rest.takeWhile isPySpace
    !ws.isEmpty && ciPre ph (rest.drop ws.length)
  | _ => false

/-- `re.search` of `##\s+<phrase>`: try a match at every position. -/
def searchSecAux (ph : List Char) : List Char → Bool
  | [] => false
  | c :: rest => sectionHere ph (c :: rest) || searchSecAux ph rest

/-- `re.search(r'##\s+<phrase>', body, re.IGNORECASE)` is truthy. -/
def reSearchSection (phrase body : String) : Bool :=
  searchSecAux phrase.data body.data

/-- `posixpath.dirname`: everything before the final slash, with trailing
slashes stripped unless the head consists only of slashes. -/
def pyDirname (p : String) : String :=
  let head := dropWhileEndL (fun c => !(c == '/')) p.data
  if head.isEmpty then ⟨head⟩
  else if head.all (fun c => c == '/') then ⟨head⟩
  else ⟨dropWhileEndL (fun c => c == '/') head⟩

/-- `posixpath.join` for two components. -/
def pyJoin (base r : String) : String :=
  if listPre ['/'] r.data then r
  else if base == "" then r
  else if pyEndsWith "/" base then base ++ r
  else base ++ "/" ++ r

/-- A YAML-decoded Python value, as produced by `yaml.safe_load`.  The
`float` constructor carries the `str()` rendering of the number. -/
inductive YamlValue where
  | str (s : String)
  | int (n : Int)
  | float (r : String)
  | bool (b : Bool)
  | null
  | list (xs : List YamlValue)
  | dict (kvs : List (String × YamlValue))

/-- `isinstance(v, str)`. -/
def isStr : YamlValue → Bool
  | .str _ => true
  | _ => false

/-- `isinstance(v, list)`. -/
def isList : YamlValue → Bool
  | .list _ => true
  | _ => false

/-- `isinstance(v, dict)`. -/
def isDict : YamlValue → Bool
  | .dict _ => true
  | _ => false

/-- `type(v).__name__`. -/
def typeName : YamlValue → String
  | .str _ => "str"
  | .int _ => "int"
  | .float _ => "float"
  | .bool _ => "bool"
  | .null => "NoneType"
  | .list _ => "list"
  | .dict _ => "dict"

/-- Python `str(v)` for the values that can reach an error message in the
validator (scalars; the container cases are unreachable there because the
code only stringifies hashable values). -/
def pyStr : YamlValue → String
  | .str s => s
  | .int n => toString n
  | .float r => r
  | .bool b => if b then "True" else "False"
  | .null => "None"
  | .list _ => "[...]"
  | .dict _ => "\x7b...\x7d"

/-- Hashable by Python's `hash` (so usable in a set-membership test without
raising `TypeError`). -/
def hashableScalar : YamlValue → Bool
  | .list _ => false
  | .dict _ => false
  | _ => true

/-- First-match association-list lookup (dict lookup; YAML dicts have
unique keys). -/
def lookupS {α : Type} : List (String × α) → String → Option α
  | [], _ => none
  | (k, v) :: rest, key => if k == key then some v else lookupS rest key

/-- `key in d` / `d[key]` for a Python dict modelled as an assoc list. -/
def dictLookup (kvs : List (String × YamlValue)) (k : String) : Option YamlValue :=
  lookupS kvs k

/-- The expected type of a schema field (`str` or `list`). -/
inductive PyType where
  | strT
  | listT
deriving DecidableEq

/-- `expected_type.__name__`. -/
def tyName : PyType → String
  | .strT => "str"
  | .listT => "list"

/-- `isinstance(value, expected_type)`. -/
def typeMatches (v : YamlValue) : PyType → Bool
  | .strT => isStr v
  | .listT => isList v

/-- The `ValidationError` record of the tool. -/
structure ValidationError where
  file_path : String
  error_type : String
  message : String
  line_number : Option Nat
deriving DecidableEq

/-- Errors are always constructed with the default `line_number=None`. -/
def mkErr (p t m : String) : ValidationError :=
  ⟨p, t, m, none⟩

/-- A Python exception escaping the validator. -/
inductive PyErr where
  | typeError
  | keyError
deriving DecidableEq

/-- The filesystem / path surface used by the validator:
`os.path.exists`, `open(...).read()`, `os.path.abspath`, `os.walk`
(each walk entry is a `(root, files)` pair; the `dirs` component is not
used by the tool). -/
structure OsEnv where
  pathExists : String → Bool
  readFile : String → Except String String
  abspath : String → String
  walk : String → List (String × List String)

/-- Map over a list and concatenate the results (the shape of the Python
`for` loops that append errors). -/
def appendMap {α β : Type} (f : α → List β) : List α → List β
  | [] => []
  | a :: l => f a ++ appendMap f l

/-- `SteeringValidator.REQUIRED_FIELDS` in declaration order. -/
def REQUIRED_FIELDS : List (String × PyType) :=
  [("title", .strT), ("description", .strT), ("category", .strT),
   ("tags", .listT), ("inclusion", .strT)]

/-- `SteeringValidator.OPTIONAL_FIELDS` in declaration order. -/
def OPTIONAL_FIELDS : List (String × PyType) :=
  [("author", .strT), ("version", .strT), ("kiro_version", .strT),
   ("dependencies", .listT), ("file_references", .listT)]

/-- `frontmatter['category'] in VALID_CATEGORIES` (for hashable values;
non-string hashables are simply not members). -/
def catOk : YamlValue → Bool
  | .str s =>
    s == "code-quality" || s == "testing" || s == "security" ||
    s == "frameworks" || s == "workflows"
  | _ => false

/-- `frontmatter['inclusion'] in VALID_INCLUSION_VALUES`. -/
def inclOk : YamlValue → Bool
  | .str s => s == "always" || s == "fileMatch" || s == "manual"
  | _ => false

/-- Message of `MISSING_REQUIRED_FIELD`. -/
def missMsg (f : String) : String :=
  "Required field '" ++ f ++ "' is missing"

/-- Message of `INVALID_FIELD_TYPE` (field, expected type name, actual type name). -/
def typeMsgS (f e g : String) : String :=
  "Field '" ++ f ++ "' must be of type " ++ e ++ ", got " ++ g

/-- Message of `MISSING_FILE_REFERENCE`. -/
def mfrMsg (r : String) : String :=
  "Referenced file '" ++ r ++ "' does not exist"

/-- Message of `MISSING_SECTION`. -/
def secMsg (s : String) : String :=
  "Required section '" ++ s ++ "' is missing"

/-- Message of `INVALID_CATEGORY` (the valid set is rendered in declaration
order; CPython set iteration order is unspecified and no claim depends on it). -/
def catMsg (v : YamlValue) : String :=
  "Category '" ++ pyStr v ++
    "' is not valid. Must be one of: code-quality, testing, security, frameworks, workflows"

/-- Message of `INVALID_INCLUSION`. -/
def inclMsg (v : YamlValue) : String :=
  "Inclusion '" ++ pyStr v ++ "' is not valid. Must be one of: always, fileMatch, manual"

/-- One iteration of the required-fields loop of `_validate_frontmatter`. -/
def requiredFieldCheck (p : String) (kvs : List (String × YamlValue))
    (fty : String × PyType) : List ValidationError :=
  match dictLookup kvs fty.1 with
  | none => [mkErr p "MISSING_REQUIRED_FIELD" (missMsg fty.1)]
  | some v =>
    if typeMatches v fty.2 then []
    else [mkErr p "INVALID_FIELD_TYPE" (typeMsgS fty.1 (tyName fty.2) (typeName v))]

/-- The required-fields loop of `_validate_frontmatter`. -/
def requiredFieldErrors (p : String) (kvs : List (String × YamlValue)) : List ValidationError :=
  appendMap (requiredFieldCheck p kvs) REQUIRED_FIELDS

/-- The category check: emitted errors plus a possible raised `TypeError`
(`value in set` raises for unhashable values). -/
def catRes (p : String) (kvs : List (String × YamlValue)) :
    List ValidationError × Option PyErr :=
  match dictLookup kvs "category" with
  | none => ([], none)
  | some v =>
    if hashableScalar v then
      (if catOk v then [] else [mkErr p "INVALID_CATEGORY" (catMsg v)], none)
    else ([], some .typeError)

/-- The inclusion check, analogous to the category check. -/
def inclRes (p : String) (kvs : List (String × YamlValue)) :
    List ValidationError × Option PyErr :=
  match dictLookup kvs "inclusion" with
  | none => ([], none)
  | some v =>
    if hashableScalar v then
      (if inclOk v then [] else [mkErr p "INVALID_INCLUSION" (inclMsg v)], none)
    else ([], some .typeError)

/-- The tags block of `_validate_frontmatter`. -/
def tagsErrors (p : String) (kvs : List (String × YamlValue)) : List ValidationError :=
  match dictLookup kvs "tags" with
  | none => []
  | some v =>
    match v with
    | .list [] => [mkErr p "EMPTY_TAGS" "Tags list cannot be empty"]
    | .list ts =>
      appendMap
        (fun t => if isStr t then [] else [mkErr p "INVALID_TAG_TYPE" "All tags must be strings"])
        ts
    | _ => [mkErr p "INVALID_TAGS" "Tags must be a list"]

/-- One iteration of the optional-fields loop. -/
def optionalFieldCheck (p : String) (kvs : List (String × YamlValue))
    (fty : String × PyType) : List ValidationError :=
  match dictLookup kvs fty.1 with
  | none => []
  | some v =>
    if typeMatches v fty.2 then []
    else [mkErr p "INVALID_FIELD_TYPE" (typeMsgS fty.1 (tyName fty.2) (typeName v))]

/-- The optional-fields loop of `_validate_frontmatter`. -/
def optionalFieldErrors (p : String) (kvs : List (String × YamlValue)) : List ValidationError :=
  appendMap (optionalFieldCheck p kvs) OPTIONAL_FIELDS

/-- `_validate_frontmatter`: the errors appended to the accumulator, and the
exception (if any) that escapes the method.  A raise in the category or
inclusion membership test aborts the remaining checks. -/
def validate_frontmatter (p : String) (fm : YamlValue) :
    List ValidationError × Option PyErr :=
  match fm with
  | .dict kvs =>
    let req := requiredFieldErrors p kvs
    match catRes p kvs with
    | (ce, some r) => (req ++ ce, some r)
    | (ce, none) =>
      match inclRes p kvs with
      | (ie, some r) => (req ++ ce ++ ie, some r)
      | (ie, none) =>
        (req ++ ce ++ ie ++ tagsErrors p kvs ++ optionalFieldErrors p kvs, none)
  | _ => ([mkErr p "INVALID_FRONTMATTER" "Frontmatter must be a YAML object"], none)

/-- Python `'key' in v` for an arbitrary decoded value: membership for dicts
and lists, substring test for strings, `TypeError` otherwise. -/
def pyContains (k : String) : YamlValue → Except PyErr Bool
  | .dict kvs => .ok (dictLookup kvs k).isSome
  | .list xs =>
    .ok (xs.any (fun x => match x with | .str s => s == k | _ => false))
  | .str s => .ok (hasSub k s)
  | _ => .error .typeError

/-- Python `v['key']`: dict lookup, `TypeError` on anything else. -/
def pySubscript : YamlValue → String → Except PyErr YamlValue
  | .dict kvs, k =>
    match dictLookup kvs k with
    | some v => .ok v
    | none => .error .keyError
  | _, _ => .error .typeError

/-- `_find_repo_root`'s upward walk, with fuel (each step strictly shortens
the path, so `length + 1` fuel is enough; see `findRepoAux_fuel`). -/
def findRepoAux (os : OsEnv) : Nat → String → Option String
  | 0, _ => none
  | Nat.succ fuel, cur =>
    if cur == pyDirname cur then none
    else if os.pathExists (pyJoin cur ".git") then some cur
    else findRepoAux os fuel (pyDirname cur)

/-- `_find_repo_root(file_path)`. -/
def find_repo_root (os : OsEnv) (p : String) : Option String :=
  let start := pyDirname (os.abspath p)
  findRepoAux os (start.length + 1) start

/-- The body of the reference loop in `_validate_file_references` for one
element. -/
def refCheck (os : OsEnv) (p : String) : YamlValue → List ValidationError
  | .str ref =>
    if os.pathExists (pyJoin (pyDirname p) ref) then []
    else
      if os.pathExists
          (match find_repo_root os p with
           | some root => pyJoin root ref
           | none => pyJoin (pyDirname p) ref) then []
      else [mkErr p "MISSING_FILE_REFERENCE" (mfrMsg ref)]
  | _ => []

/-- `_validate_file_references`: emitted errors and a possible raise (the
`'file_references' not in frontmatter` test raises `TypeError` on
non-container frontmatter values). -/
def validate_file_references (os : OsEnv) (p : String) (fm : YamlValue) :
    List ValidationError × Option PyErr :=
  match pyContains "file_references" fm with
  | .error e => ([], some e)
  | .ok false => ([], none)
  | .ok true =>
    match pySubscript fm "file_references" with
    | .error e => ([], some e)
    | .ok frs =>
      match frs with
      | .list refs => (appendMap (refCheck os p) refs, none)
      | _ => ([], none)

/-- The reference-checking part of `_validate_file_references`, as a
function of the `file_references` value (spec-side decomposition). -/
def refSegment (os : OsEnv) (p : String) : YamlValue → List ValidationError × Option PyErr
  | .list refs => (appendMap (refCheck os p) refs, none)
  | _ => ([], none)

/-- The three required section phrases, in source order. -/
def REQUIRED_SECTIONS : List String :=
  ["Core Principle", "How Kiro Will Write", "What This Prevents"]

/-- `_validate_markdown_structure`. -/
def validate_markdown_structure (p body : String) : List ValidationError :=
  if pyStrip body == "" then [mkErr p "EMPTY_BODY" "Document body cannot be empty"]
  else
    appendMap
      (fun s => if reSearchSection s body then [] else [mkErr p "MISSING_SECTION" (secMsg s)])
      REQUIRED_SECTIONS

/-- Find the closing delimiter: `for i, line in enumerate(lines[1:], 1):
if line.strip() == '---'` (call with the already-dropped tail and start
index 1). -/
def findClose : Nat → List String → Option Nat
  | _, [] => none
  | i, l :: ls => if pyStrip l == "---" then some i else findClose (i + 1) ls

/-- `_extract_frontmatter`: the decoded frontmatter (if any), the body, and
the errors appended while extracting. -/
def extract_frontmatter (parse : String → Except String YamlValue)
    (p content : String) : Option YamlValue × String × List ValidationError :=
  if pyStartsWith "---" content = false then
    (none, content, [mkErr p "MISSING_FRONTMATTER" "File must start with YAML frontmatter"])
  else
    match findClose 1 ((splitNl content).drop 1) with
    | none =>
      (none, content, [mkErr p "INVALID_FRONTMATTER" "Frontmatter not properly closed with ---"])
    | some i =>
      match parse (joinNl (((splitNl content).drop 1).take (i - 1))) with
      | .error e =>
        (none, joinNl ((splitNl content).drop (i + 1)),
         [mkErr p "YAML_SYNTAX_ERROR" ("Invalid YAML syntax: " ++ e)])
      | .ok v => (some v, joinNl ((splitNl content).drop (i + 1)), [])

/-- Python `frontmatter is not None` on the decoded value: a successfully
parsed frontmatter block may itself decode to YAML null, which is the very
same Python `None` that signals absent frontmatter, so the guard at source
line 80 skips the dependent checks for it as well. -/
def fmIsNotNone : YamlValue → Bool
  | .null => false
  | _ => true

/-- `validate_file(path)`.  The first list argument is the content of the
error accumulator before the call; the method resets it (`self.errors = []`),
so the argument is discarded.  The result is the returned error list, or the
exception that escapes the call. -/
def validate_file (os : OsEnv) (parse : String → Except String YamlValue)
    (_prev : List ValidationError) (p : String) :
    Except PyErr (List ValidationError) :=
  if os.pathExists p = false then .ok [mkErr p "FILE_NOT_FOUND" "File does not exist"]
  else
    match os.readFile p with
    | .error e => .ok [mkErr p "READ_ERROR" ("Cannot read file: " ++ e)]
    | .ok content =>
      match extract_frontmatter parse p content with
      | (none, body, errs1) => .ok (errs1 ++ validate_markdown_structure p body)
      | (some fm, body, errs1) =>
        if fmIsNotNone fm then
          match validate_frontmatter p fm with
          | (_, some e) => .error e
          | (fmErrs, none) =>
            match validate_file_references os p fm with
            | (_, some e) => .error e
            | (refErrs, none) =>
              .ok (errs1 ++ fmErrs ++ refErrs ++ validate_markdown_structure p body)
        else .ok (errs1 ++ validate_markdown_structure p body)

/-- The file filter of `validate_directory`:
`file.endswith('.md') and file.upper() != 'README.MD'`. -/
def mdFileFilter (f : String) : Bool :=
  pyEndsWith ".md" f && !(pyUpper f == "README.MD")

/-- The inner `for file in files` loop of `validate_directory`. -/
def dirFileStep (os : OsEnv) (parse : String → Except String YamlValue)
    (root : String) :
    List String → List (String × List ValidationError) →
    Except PyErr (List (String × List ValidationError))
  | [], acc => .ok acc
  | f :: fs, acc =>
    if mdFileFilter f then
      match validate_file os parse [] (pyJoin root f) with
      | .error e => .error e
      | .ok errs => dirFileStep os parse root fs (acc ++ [(pyJoin root f, errs)])
    else dirFileStep os parse root fs acc

/-- The outer `for root, dirs, files in os.walk(directory)` loop. -/
def dirWalkStep (os : OsEnv) (parse : String → Except String YamlValue) :
    List (String × List String) → List (String × List ValidationError) →
    Except PyErr (List (String × List ValidationError))
  | [], acc => .ok acc
  | rt :: rest, acc =>
    match dirFileStep os parse rt.1 rt.2 acc with
    | .error e => .error e
    | .ok acc2 => dirWalkStep os parse rest acc2

/-- `validate_directory(directory)`. -/
def validate_directory (os : OsEnv) (parse : String → Except String YamlValue)
    (dir : String) : Except PyErr (List (String × List ValidationError)) :=
  if os.pathExists dir = false then
    .ok [(dir, [mkErr dir "DIRECTORY_NOT_FOUND" "Directory does not exist"])]
  else dirWalkStep os parse (os.walk dir) []

/-! Specification-side definitions used to state the claims. -/

/-- The files a directory walk visits, per the spec: every walked file whose
name passes the `.md` / `README.MD` filter, joined to its root. -/
def visitedFiles (os : OsEnv) (dir : String) : List String :=
  appendMap (fun e => (e.2.filter mdFileFilter).map (pyJoin e.1)) (os.walk dir)

/-- Run single-file validation on each path in order, mapping each path to
its error list (spec-side description of the walker's result). -/
def filesResults (os : OsEnv) (parse : String → Except String YamlValue) :
    List String → Except PyErr (List (String × List ValidationError))
  | [] => .ok []
  | f :: fs =>
    match validate_file os parse [] f with
    | .error e => .error e
    | .ok errs =>
      match filesResults os parse fs with
      | .error e => .error e
      | .ok rest => .ok ((f, errs) :: rest)

/-- The elements of a YAML list value (empty for non-lists). -/
def listElems : YamlValue → List YamlValue
  | .list xs => xs
  | _ => []

/-- Spec-side: `ref` resolves either relative to the document's directory or
relative to the repository root (no root found means the fallback is skipped). -/
def refResolves (os : OsEnv) (p ref : String) : Bool :=
  os.pathExists (pyJoin (pyDirname p) ref) ||
    (match find_repo_root os p with
     | some root => os.pathExists (pyJoin root ref)
     | none => false)

/-- Spec-side: a reference-list element that produces an error (a string
that resolves in neither way). -/
def refFails (os : OsEnv) (p : String) : YamlValue → Bool
  | .str s => !(refResolves os p s)
  | _ => false

/-- The error types of a returned list (empty when the call raised). -/
def retErrTypes (r : Except PyErr (List ValidationError)) : List String :=
  match r with
  | .ok l => l.map (fun e => e.error_type)
  | .error _ => []

/-- Count the errors of a given type. -/
def countType (t : String) (l : List ValidationError) : Nat :=
  l.countP (fun e => e.error_type == t)

/-- Spec-side (claim C2): the line is a level-2 heading line for the phrase:
`##` at the start of the line, then whitespace, then the phrase
case-insensitively. -/
def specHeadingLine (phrase l : String) : Bool :=
  sectionHere phrase.data l.data

/-! Concrete environments used by counterexamples and witnesses. -/

/-- A YAML parser that returns the text it was handed (used to observe which
string reaches the parser). -/
def obsParse : String → Except String YamlValue :=
  fun s => .ok (.str s)

/-- A table-driven YAML parser stub for concrete runs. -/
def tblParse (tbl : List (String × YamlValue)) : String → Except String YamlValue :=
  fun s =>
    match lookupS tbl s with
    | some v => .ok v
    | none => .error "unknown"

/-- A concrete environment: existing paths, readable files, walk result. -/
def osOf (ex : List String) (rd : List (String × String))
    (wk : List (String × List String)) : OsEnv :=
  { pathExists := fun q => ex.contains q
    readFile := fun q =>
      match lookupS rd q with
      | some c => .ok c
      | none => .error "unreadable"
    abspath := fun q => q
    walk := fun _ => wk }

/-! Basic lemmas about the string helpers. -/

theorem strInj {s t : String} (h : s.data = t.data) : s = t := by
  cases s; cases t; cases h; rfl

theorem strData_append (a b : String) : (a ++ b).data = a.data ++ b.data := rfl

theorem appendMap_eq_bind {α β : Type} (f : α → List β) :
    ∀ l : List α, appendMap f l = l.flatMap f := by
  intro l
  induction l with
  | nil => rfl
  | cons x xs ih => simp [appendMap, ih, List.flatMap_cons]

theorem mem_appendMap {α β : Type} {f : α → List β} {b : β} {l : List α} :
    b ∈ appendMap f l ↔ ∃ a, a ∈ l ∧ b ∈ f a := by
  rw [appendMap_eq_bind]
  simp [List.mem_flatMap]

theorem listPre_refl : ∀ l : List Char, listPre l l = true := by
  intro l
  induction l with
  | nil => rfl
  | cons c cs ih => simp [listPre, ih]

theorem listPre_cancel : ∀ (P A B : List Char), listPre (P ++ A) (P ++ B) = listPre A B := by
  intro P A B
  induction P with
  | nil => rfl
  | cons c cs ih => simp [listPre, ih]

theorem listPre_app_false : ∀ (X Y A B : List Char), listPre X Y = false →
    listPre Y X = false → listPre (X ++ A) (Y ++ B) = false := by
  intro X
  induction X with
  | nil =>
    intro Y A B h1 _
    simp [listPre] at h1
  | cons x xt ih =>
    intro Y A B h1 h2
    cases Y with
    | nil => simp [listPre] at h2
    | cons y yt =>
      simp only [List.cons_append, listPre] at h1 h2 ⊢
      cases hxy : x == y with
      | false => simp [hxy]
      | true =>
        simp only [hxy, Bool.true_and] at h1
        have hyx : y == x := by
          have := eq_of_beq hxy
          subst this
          exact hxy
        simp only [hyx, Bool.true_and] at h2
        simp [hxy, ih yt A B h1 h2]

theorem append_ne_of_no_pre {X Y A B : List Char} (h1 : listPre X Y = false)
    (h2 : listPre Y X = false) : X ++ A ≠ Y ++ B := by
  intro h
  have hf : listPre (X ++ A) (Y ++ B) = false := listPre_app_false X Y A B h1 h2
  rw [h, listPre_refl] at hf
  cases hf

theorem strNe_of_mid (pre f g a b : String) (h1 : listPre f.data g.data = false)
    (h2 : listPre g.data f.data = false) : pre ++ f ++ a ≠ pre ++ g ++ b := by
  intro h
  have hd := congrArg String.data h
  simp only [strData_append, List.append_assoc] at hd
  have hc := List.append_cancel_left hd
  exact append_ne_of_no_pre h1 h2 hc

theorem strPre_mid_false (pre f g a b : String) (h1 : listPre f.data g.data = false)
    (h2 : listPre g.data f.data = false) :
    strPre (pre ++ f ++ a) (pre ++ g ++ b) = false := by
  unfold strPre
  simp only [strData_append, List.append_assoc]
  rw [listPre_cancel]
  exact listPre_app_false _ _ _ _ h1 h2

/-! Characterisation of the closing-delimiter scan. -/

theorem findClose_eq_some : ∀ (ls : List String) (s k : Nat), s ≤ k → k - s < ls.length →
    pyStrip (ls.getD (k - s) "") = "---" →
    (∀ j, s ≤ j → j < k → pyStrip (ls.getD (j - s) "") ≠ "---") →
    findClose s ls = some k := by
  intro ls
  induction ls with
  | nil =>
    intro s k _ h2 _ _
    simp at h2
  | cons l rest ih =>
    intro s k h1 h2 h3 h4
    by_cases hsk : s = k
    · subst hsk
      simp only [Nat.sub_self, List.getD_cons_zero] at h3
      simp [findClose, h3]
    · have hlt : s < k := lt_of_le_of_ne h1 hsk
      have hl : pyStrip l ≠ "---" := by
        have := h4 s le_rfl hlt
        simpa using this
      have hbeq : (pyStrip l == "---") = false := by
        simpa using hl
      simp only [findClose, hbeq, Bool.false_eq_true, if_false]
      apply ih (s + 1) k (by omega)
      · simp at h2
        omega
      · have : k - s = (k - (s + 1)) + 1 := by omega
        rw [this] at h3
        simpa using h3
      · intro j hj1 hj2
        have hj0 : s ≤ j := by omega
        have := h4 j hj0 hj2
        have hjs : j - s = (j - (s + 1)) + 1 := by omega
        rw [hjs] at this
        simpa using this

theorem getD_drop_one (l : List String) (j : Nat) (hj : 1 ≤ j) :
    (l.drop 1).getD (j - 1) "" = l.getD j "" := by
  cases l with
  | nil => simp
  | cons x xs =>
    obtain ⟨m, rfl⟩ : ∃ m, j = m + 1 := ⟨j - 1, by omega⟩
    simp

/-- Claim C1 (counterexample): in a document whose frontmatter is followed by
the line `  ---` (which strips to `---` but is not exactly `---`), the
extractor terminates the frontmatter there and hands `title: x` to the YAML
parser, although no subsequent line is exactly `---` — so the closing
delimiter is not "the first subsequent line that is exactly `---`", and a
line that merely strips to `---` does terminate the frontmatter. -/
theorem C1_counterexample :
    extract_frontmatter obsParse "p" "---\ntitle: x\n  ---\nbody" =
      (some (.str "title: x"), "body", []) ∧
    ((splitNl "---\ntitle: x\n  ---\nbody").drop 1).all (fun l => !(l == "---")) = true :=
  ⟨rfl, by decide⟩

/-- Claim C1 (amended): for content that begins with `---`, if line `i`
(`i ≥ 1`) is the first subsequent line whose `strip()` equals `---`, then
the text handed to the YAML parser is the newline-join of the lines strictly
between the opening line and line `i`, and the body is the newline-join of
the lines after line `i`. -/
theorem C1_claim (parse : String → Except String YamlValue)
    (p content : String) (i : Nat) (v : YamlValue) (em : String)
    (h0 : pyStartsWith "---" content = true)
    (h1 : 1 ≤ i) (h2 : i < (splitNl content).length)
    (h3 : pyStrip ((splitNl content).getD i "") = "---")
    (h4 : ∀ j, 1 ≤ j → j < i → pyStrip ((splitNl content).getD j "") ≠ "---") :
    (parse (joinNl (((splitNl content).drop 1).take (i - 1))) = .ok v →
       extract_frontmatter parse p content =
         (some v, joinNl ((splitNl content).drop (i + 1)), [])) ∧
    (parse (joinNl (((splitNl content).drop 1).take (i - 1))) = .error em →
       extract_frontmatter parse p content =
         (none, joinNl ((splitNl content).drop (i + 1)),
          [mkErr p "YAML_SYNTAX_ERROR" ("Invalid YAML syntax: " ++ em)])) := by
  have hfc : findClose 1 ((splitNl content).drop 1) = some i := by
    apply findClose_eq_some _ 1 i h1
    · simp
      omega
    · rw [getD_drop_one _ i h1]
      exact h3
    · intro j hj1 hj2
      rw [getD_drop_one _ j hj1]
      exact h4 j hj1 hj2
  constructor
  · intro hp
    simp only [extract_frontmatter, h0, Bool.true_eq_false, if_false, hfc, hp]
  · intro hp
    simp only [extract_frontmatter, h0, Bool.true_eq_false, if_false, hfc, hp]

/-- Claim C1 (witness for the amended theorem at a concrete document). -/
theorem C1_witness :
    extract_frontmatter obsParse "p" "---\na: 1\n---\nB\nC" =
      (some (.str "a: 1"), "B\nC", []) :=
  (C1_claim obsParse "p" "---\na: 1\n---\nB\nC" 2 (.str "a: 1") ""
    (by decide) (by decide) (by decide) (by decide)
    (by intro j hj1 hj2; interval_cases j; decide)).1 rfl

/-- Claim C3 (code bug): for a frontmatter block that decodes to a
non-mapping, non-null value (here the integer `5`), `_validate_frontmatter`
emits `INVALID_FRONTMATTER` and stops — but `validate_file` then still
calls `_validate_file_references` on that value, and the membership test
`'file_references' not in 5` raises `TypeError`, so `validate_file` raises
instead of returning the error list.  The last conjunct records the other
divergence from the claim: a block decoding to null (an empty frontmatter
block) is the same Python `None` as absent frontmatter, so the `is not
None` guard skips both dependent checks and, contrary to the claim, no
`INVALID_FRONTMATTER` is emitted for it at all. -/
theorem C3_claim :
    validate_file (osOf ["doc.md"] [("doc.md", "---\n5\n---\nbody")] [])
        (tblParse [("5", .int 5)]) [] "doc.md" = .error .typeError ∧
    validate_frontmatter "doc.md" (YamlValue.int 5) =
      ([mkErr "doc.md" "INVALID_FRONTMATTER" "Frontmatter must be a YAML object"], none) ∧
    validate_file_references (osOf ["doc.md"] [("doc.md", "---\n5\n---\nbody")] [])
        "doc.md" (YamlValue.int 5) = ([], some .typeError) ∧
    validate_file (osOf ["e.md"] [("e.md", "---\n---\nbody")] [])
        (tblParse [("", .null)]) [] "e.md" =
      .ok (validate_markdown_structure "e.md" "body") :=
  ⟨rfl, rfl, rfl, rfl⟩

/-- Claim C6 (code bug): for the frontmatter mapping
`{category: [], tags: []}`, the membership test
`frontmatter['category'] not in VALID_CATEGORIES` raises `TypeError`
(a list is unhashable) before the tags block runs, so no `EMPTY_TAGS`
error is ever emitted even though `tags` is present and an empty list. -/
theorem C6_claim :
    dictLookup [("category", YamlValue.list []), ("tags", YamlValue.list [])] "tags" =
      some (YamlValue.list []) ∧
    (validate_frontmatter "f.md"
        (.dict [("category", YamlValue.list []), ("tags", YamlValue.list [])])).2 =
      some .typeError ∧
    countType "EMPTY_TAGS"
      (validate_frontmatter "f.md"
        (.dict [("category", YamlValue.list []), ("tags", YamlValue.list [])])).1 = 0 :=
  ⟨rfl, rfl, by decide⟩

/-- Claim C2 (counterexample): a body whose only occurrence of
`## Core Principle` sits in the middle of a line (no line of the body is a
level-2 heading line for that phrase) nevertheless satisfies the unanchored
`re.search`, so no `MISSING_SECTION` error is emitted — contradicting the
claim that the error is emitted if and only if no heading line exists. -/
theorem C2_counterexample :
    validate_markdown_structure "p"
        "x ## Core Principle\n## How Kiro Will Write\n## What This Prevents" = [] ∧
    (splitNl "x ## Core Principle\n## How Kiro Will Write\n## What This Prevents").all
      (fun l => !(specHeadingLine "Core Principle" l)) = true := by
  constructor
  · decide
  · decide

/-- Claim C2 (amended): for a non-blank body and each required section
phrase, `MISSING_SECTION` for that phrase is emitted if and only if the
pattern `##` + whitespace + phrase (case-insensitively) occurs nowhere in
the body — the occurrence may be in the middle of a line or inside a longer
run of `#` marks; it is not required to be a heading line. -/
theorem C2_claim (p body phrase : String) (h : ¬ (pyStrip body = ""))
    (hmem : phrase ∈ REQUIRED_SECTIONS) :
    (mkErr p "MISSING_SECTION" (secMsg phrase) ∈ validate_markdown_structure p body) ↔
      reSearchSection phrase body = false := by
  have hb : (pyStrip body == "") = false := by
    simpa using h
  simp only [validate_markdown_structure, hb, Bool.false_eq_true, if_false,
    REQUIRED_SECTIONS, appendMap, List.append_nil]
  simp only [REQUIRED_SECTIONS, List.mem_cons, List.not_mem_nil, or_false] at hmem
  rcases hmem with rfl | rfl | rfl <;>
    cases h1 : reSearchSection "Core Principle" body <;>
    cases h2 : reSearchSection "How Kiro Will Write" body <;>
    cases h3 : reSearchSection "What This Prevents" body <;>
      simp [h1, h2, h3, mkErr, secMsg, ValidationError.mk.injEq]

/-- Claim C2 (witness for the amended theorem at a concrete body and phrase). -/
theorem C2_witness :
    (mkErr "p" "MISSING_SECTION" (secMsg "How Kiro Will Write") ∈
        validate_markdown_structure "p" "## Core Principle") ↔
      reSearchSection "How Kiro Will Write" "## Core Principle" = false :=
  C2_claim "p" "## Core Principle" "How Kiro Will Write" (by decide) (by decide)

/-! Shape lemmas: which errors each validation segment can append. -/

theorem mem_reqCheck {p : String} {kvs : List (String × YamlValue)}
    {fty : String × PyType} {e : ValidationError}
    (h : e ∈ requiredFieldCheck p kvs fty) :
    (dictLookup kvs fty.1 = none ∧
       e = mkErr p "MISSING_REQUIRED_FIELD" (missMsg fty.1)) ∨
    (∃ v, dictLookup kvs fty.1 = some v ∧ typeMatches v fty.2 = false ∧
       e = mkErr p "INVALID_FIELD_TYPE" (typeMsgS fty.1 (tyName fty.2) (typeName v))) := by
  unfold requiredFieldCheck at h
  cases hl : dictLookup kvs fty.1 with
  | none =>
    rw [hl] at h
    simp at h
    exact Or.inl ⟨rfl, h⟩
  | some v =>
    rw [hl] at h
    cases ht : typeMatches v fty.2 with
    | true => simp [ht] at h
    | false =>
      simp [ht] at h
      exact Or.inr ⟨v, rfl, ht, h⟩

theorem mem_optCheck {p : String} {kvs : List (String × YamlValue)}
    {fty : String × PyType} {e : ValidationError}
    (h : e ∈ optionalFieldCheck p kvs fty) :
    ∃ v, dictLookup kvs fty.1 = some v ∧ typeMatches v fty.2 = false ∧
      e = mkErr p "INVALID_FIELD_TYPE" (typeMsgS fty.1 (tyName fty.2) (typeName v)) := by
  unfold optionalFieldCheck at h
  cases hl : dictLookup kvs fty.1 with
  | none => rw [hl] at h; simp at h
  | some v =>
    rw [hl] at h
    cases ht : typeMatches v fty.2 with
    | true => simp [ht] at h
    | false =>
      simp [ht] at h
      exact ⟨v, rfl, ht, h⟩

theorem mem_catRes {p : String} {kvs : List (String × YamlValue)} {e : ValidationError}
    (h : e ∈ (catRes p kvs).1) :
    ∃ v, dictLookup kvs "category" = some v ∧
      e = mkErr p "INVALID_CATEGORY" (catMsg v) := by
  unfold catRes at h
  cases hl : dictLookup kvs "category" with
  | none => rw [hl] at h; simp at h
  | some v =>
    rw [hl] at h
    cases hh : hashableScalar v with
    | false => simp [hh] at h
    | true =>
      cases hc : catOk v with
      | true => simp [hh, hc] at h
      | false =>
        simp [hh, hc] at h
        exact ⟨v, rfl, h⟩

theorem mem_inclRes {p : String} {kvs : List (String × YamlValue)} {e : ValidationError}
    (h : e ∈ (inclRes p kvs).1) :
    ∃ v, dictLookup kvs "inclusion" = some v ∧
      e = mkErr p "INVALID_INCLUSION" (inclMsg v) := by
  unfold inclRes at h
  cases hl : dictLookup kvs "inclusion" with
  | none => rw [hl] at h; simp at h
  | some v =>
    rw [hl] at h
    cases hh : hashableScalar v with
    | false => simp [hh] at h
    | true =>
      cases hc : inclOk v with
      | true => simp [hh, hc] at h
      | false =>
        simp [hh, hc] at h
        exact ⟨v, rfl, h⟩

theorem mem_tagsErrors {p : String} {kvs : List (String × YamlValue)} {e : ValidationError}
    (h : e ∈ tagsErrors p kvs) :
    e = mkErr p "EMPTY_TAGS" "Tags list cannot be empty" ∨
    e = mkErr p "INVALID_TAG_TYPE" "All tags must be strings" ∨
    e = mkErr p "INVALID_TAGS" "Tags must be a list" := by
  unfold tagsErrors at h
  cases hl : dictLookup kvs "tags" with
  | none => rw [hl] at h; simp at h
  | some v =>
    rw [hl] at h
    match v with
    | .list [] =>
      simp at h
      exact Or.inl h
    | .list (t :: ts) =>
      rcases mem_appendMap.mp h with ⟨a, _, ha⟩
      cases hs : isStr a with
      | true => simp [hs] at ha
      | false =>
        simp [hs] at ha
        exact Or.inr (Or.inl ha)
    | .str s => simp at h; exact Or.inr (Or.inr h)
    | .int n => simp at h; exact Or.inr (Or.inr h)
    | .float r => simp at h; exact Or.inr (Or.inr h)
    | .bool b => simp at h; exact Or.inr (Or.inr h)
    | .null => simp at h; exact Or.inr (Or.inr h)
    | .dict kvs2 => simp at h; exact Or.inr (Or.inr h)

theorem vfm_dict_eq (p : String) (kvs : List (String × YamlValue)) :
    validate_frontmatter p (.dict kvs) =
      (match catRes p kvs with
       | (ce, some r) => (requiredFieldErrors p kvs ++ ce, some r)
       | (ce, none) =>
         match inclRes p kvs with
         | (ie, some r) => (requiredFieldErrors p kvs ++ ce ++ ie, some r)
         | (ie, none) =>
           (requiredFieldErrors p kvs ++ ce ++ ie ++ tagsErrors p kvs ++
             optionalFieldErrors p kvs, none)) := rfl

theorem mem_vfm_cases {p : String} {fm : YamlValue} {e : ValidationError}
    (h : e ∈ (validate_frontmatter p fm).1) :
    e = mkErr p "INVALID_FRONTMATTER" "Frontmatter must be a YAML object" ∨
    ∃ kvs, fm = .dict kvs ∧
      (e ∈ requiredFieldErrors p kvs ∨ e ∈ (catRes p kvs).1 ∨ e ∈ (inclRes p kvs).1 ∨
       e ∈ tagsErrors p kvs ∨ e ∈ optionalFieldErrors p kvs) := by
  match fm with
  | .dict kvs =>
    refine Or.inr ⟨kvs, rfl, ?_⟩
    rw [vfm_dict_eq] at h
    rcases hc : catRes p kvs with ⟨ce, rc⟩
    rw [hc] at h
    cases rc with
    | some r =>
      simp only [List.mem_append] at h
      rcases h with h | h
      · exact Or.inl h
      · exact Or.inr (Or.inl h)
    | none =>
      rcases hi : inclRes p kvs with ⟨ie, ri⟩
      rw [hi] at h
      cases ri with
      | some r =>
        simp only [List.mem_append] at h
        rcases h with (h | h) | h
        · exact Or.inl h
        · exact Or.inr (Or.inl h)
        · exact Or.inr (Or.inr (Or.inl h))
      | none =>
        simp only [List.mem_append] at h
        rcases h with (((h | h) | h) | h) | h
        · exact Or.inl h
        · exact Or.inr (Or.inl h)
        · exact Or.inr (Or.inr (Or.inl h))
        · exact Or.inr (Or.inr (Or.inr (Or.inl h)))
        · exact Or.inr (Or.inr (Or.inr (Or.inr h)))
  | .str s => simp [validate_frontmatter] at h; exact Or.inl h
  | .int n => simp [validate_frontmatter] at h; exact Or.inl h
  | .float r => simp [validate_frontmatter] at h; exact Or.inl h
  | .bool b => simp [validate_frontmatter] at h; exact Or.inl h
  | .null => simp [validate_frontmatter] at h; exact Or.inl h
  | .list xs => simp [validate_frontmatter] at h; exact Or.inl h

theorem vms_shape {p b : String} {e : ValidationError}
    (h : e ∈ validate_markdown_structure p b) :
    e.file_path = p ∧ e.line_number = none ∧
      (e.error_type = "EMPTY_BODY" ∨ e.error_type = "MISSING_SECTION") := by
  unfold validate_markdown_structure at h
  split at h
  · simp at h
    subst h
    exact ⟨rfl, rfl, Or.inl rfl⟩
  · rcases mem_appendMap.mp h with ⟨s, _, hs⟩
    cases hr : reSearchSection s b with
    | true => simp [hr] at hs
    | false =>
      simp [hr] at hs
      subst hs
      exact ⟨rfl, rfl, Or.inr rfl⟩

theorem extract_shape {parse : String → Except String YamlValue} {p c : String}
    {e : ValidationError} (h : e ∈ (extract_frontmatter parse p c).2.2) :
    e.file_path = p ∧ e.line_number = none ∧
      (e.error_type = "MISSING_FRONTMATTER" ∨ e.error_type = "INVALID_FRONTMATTER" ∨
       e.error_type = "YAML_SYNTAX_ERROR") := by
  unfold extract_frontmatter at h
  split at h
  · simp at h
    subst h
    exact ⟨rfl, rfl, Or.inl rfl⟩
  · split at h
    · simp at h
      subst h
      exact ⟨rfl, rfl, Or.inr (Or.inl rfl)⟩
    · split at h
      · simp at h
        subst h
        exact ⟨rfl, rfl, Or.inr (Or.inr rfl)⟩
      · simp at h

theorem extract_shape_opened {parse : String → Except String YamlValue} {p c : String}
    {e : ValidationError} (h0 : pyStartsWith "---" c = true)
    (h : e ∈ (extract_frontmatter parse p c).2.2) :
    e.error_type = "INVALID_FRONTMATTER" ∨ e.error_type = "YAML_SYNTAX_ERROR" := by
  unfold extract_frontmatter at h
  rw [h0] at h
  simp only [Bool.true_eq_false, if_false] at h
  split at h
  · simp at h
    subst h
    exact Or.inl rfl
  · split at h
    · simp at h
      subst h
      exact Or.inr rfl
    · simp at h

theorem mem_refCheck {os : OsEnv} {p : String} {r : YamlValue} {e : ValidationError}
    (h : e ∈ refCheck os p r) :
    ∃ s, r = .str s ∧ e = mkErr p "MISSING_FILE_REFERENCE" (mfrMsg s) := by
  cases r with
  | str s =>
    simp [refCheck] at h
    exact ⟨s, rfl, h.2.2⟩
  | int n => simp [refCheck] at h
  | float f => simp [refCheck] at h
  | bool b => simp [refCheck] at h
  | null => simp [refCheck] at h
  | list xs => simp [refCheck] at h
  | dict kvs => simp [refCheck] at h

theorem vfr_shape {os : OsEnv} {p : String} {fm : YamlValue} {e : ValidationError}
    (h : e ∈ (validate_file_references os p fm).1) :
    ∃ s, e = mkErr p "MISSING_FILE_REFERENCE" (mfrMsg s) := by
  unfold validate_file_references at h
  split at h
  · simp at h
  · simp at h
  · split at h
    · simp at h
    · split at h
      · rcases mem_appendMap.mp h with ⟨a, _, ha⟩
        rcases mem_refCheck ha with ⟨s, _, he⟩
        exact ⟨s, he⟩
      · simp at h

theorem vfm_shape {p : String} {fm : YamlValue} {e : ValidationError}
    (h : e ∈ (validate_frontmatter p fm).1) :
    e.file_path = p ∧ e.line_number = none ∧
      e.error_type ∈ (["INVALID_FRONTMATTER", "MISSING_REQUIRED_FIELD",
        "INVALID_FIELD_TYPE", "INVALID_CATEGORY", "INVALID_INCLUSION",
        "INVALID_TAGS", "EMPTY_TAGS", "INVALID_TAG_TYPE"] : List String) := by
  rcases mem_vfm_cases h with he | ⟨kvs, _, seg⟩
  · subst he
    refine ⟨rfl, rfl, by simp [mkErr]⟩
  · rcases seg with hs | hs | hs | hs | hs
    · rcases mem_appendMap.mp hs with ⟨fty, _, hin⟩
      rcases mem_reqCheck hin with ⟨_, he⟩ | ⟨v, _, _, he⟩ <;>
        (subst he; exact ⟨rfl, rfl, by simp [mkErr]⟩)
    · rcases mem_catRes hs with ⟨v, _, he⟩
      subst he
      exact ⟨rfl, rfl, by simp [mkErr]⟩
    · rcases mem_inclRes hs with ⟨v, _, he⟩
      subst he
      exact ⟨rfl, rfl, by simp [mkErr]⟩
    · rcases mem_tagsErrors hs with he | he | he <;>
        (subst he; exact ⟨rfl, rfl, by simp [mkErr]⟩)
    · rcases mem_appendMap.mp hs with ⟨fty, _, hin⟩
      rcases mem_optCheck hin with ⟨v, _, _, he⟩
      subst he
      exact ⟨rfl, rfl, by simp [mkErr]⟩

/-- Claim C10 (confirmed): every error in a list returned by
`validate_file(path)` carries that path as its `file_path` and has
`line_number = None` — no code path attaches a line number. -/
theorem C10_claim (os : OsEnv) (parse : String → Except String YamlValue)
    (prev : List ValidationError) (p : String) (errs : List ValidationError)
    (h : validate_file os parse prev p = .ok errs) :
    errs.all (fun e => e.file_path == p && e.line_number == none) = true := by
  rw [List.all_eq_true]
  intro e he
  unfold validate_file at h
  by_cases hpe : os.pathExists p = false
  · rw [if_pos hpe] at h
    simp only [Except.ok.injEq] at h
    subst h
    simp at he
    subst he
    simp [mkErr]
  · rw [if_neg hpe] at h
    cases hrd : os.readFile p with
    | error msg =>
      rw [hrd] at h
      simp only [Except.ok.injEq] at h
      subst h
      simp at he
      subst he
      simp [mkErr]
    | ok content =>
      rw [hrd] at h
      dsimp only at h
      rcases hex : extract_frontmatter parse p content with ⟨fmOpt, body, errs1⟩
      rw [hex] at h
      cases fmOpt with
      | none =>
        dsimp only at h
        simp only [Except.ok.injEq] at h
        subst h
        rcases List.mem_append.mp he with hm | hm
        · have hm2 : e ∈ (extract_frontmatter parse p content).2.2 := by
            rw [hex]
            exact hm
          have := extract_shape hm2
          simp [this.1, this.2.1]
        · have := vms_shape hm
          simp [this.1, this.2.1]
      | some fm =>
        dsimp only at h
        cases hp : fmIsNotNone fm with
        | false =>
          rw [if_neg (by simp [hp])] at h
          simp only [Except.ok.injEq] at h
          subst h
          rcases List.mem_append.mp he with hm | hm
          · have hm2 : e ∈ (extract_frontmatter parse p content).2.2 := by
              rw [hex]
              exact hm
            have := extract_shape hm2
            simp [this.1, this.2.1]
          · have := vms_shape hm
            simp [this.1, this.2.1]
        | true =>
          rw [if_pos hp] at h
          rcases hvfm : validate_frontmatter p fm with ⟨fmErrs, rvfm⟩
          rw [hvfm] at h
          cases rvfm with
          | some r => cases h
          | none =>
              dsimp only at h
              rcases hvfr : validate_file_references os p fm with ⟨refErrs, rvfr⟩
              rw [hvfr] at h
              cases rvfr with
              | some r => cases h
              | none =>
                simp only [Except.ok.injEq] at h
                subst h
                rcases List.mem_append.mp he with hm | hm
                swap
                · have := vms_shape hm
                  simp [this.1, this.2.1]
                rcases List.mem_append.mp hm with hm2 | hm2
                swap
                · have hrf2 : e ∈ (validate_file_references os p fm).1 := by
                    rw [hvfr]
                    exact hm2
                  rcases vfr_shape hrf2 with ⟨s2, he2⟩
                  subst he2
                  simp [mkErr]
                rcases List.mem_append.mp hm2 with hm3 | hm3
                · have hm4 : e ∈ (extract_frontmatter parse p content).2.2 := by
                    rw [hex]
                    exact hm3
                  have := extract_shape hm4
                  simp [this.1, this.2.1]
                · have hfm2 : e ∈ (validate_frontmatter p fm).1 := by
                    rw [hvfm]
                    exact hm3
                  have := vfm_shape hfm2
                  simp [this.1, this.2.1]

/-- Claim C10 (witness at a nonexistent path). -/
theorem C10_witness :
    ([mkErr "x.md" "FILE_NOT_FOUND" "File does not exist"] :
        List ValidationError).all
      (fun e => e.file_path == "x.md" && e.line_number == none) = true :=
  C10_claim (osOf [] [] []) obsParse [] "x.md"
    [mkErr "x.md" "FILE_NOT_FOUND" "File does not exist"] rfl

theorem vf_ok_mem {os : OsEnv} {parse : String → Except String YamlValue}
    {prev : List ValidationError} {p content : String} {errs : List ValidationError}
    {e : ValidationError}
    (h : validate_file os parse prev p = .ok errs)
    (hpe : os.pathExists p = true) (hrd : os.readFile p = .ok content)
    (he : e ∈ errs) :
    e ∈ (extract_frontmatter parse p content).2.2 ∨
    (∃ fm, (extract_frontmatter parse p content).1 = some fm ∧
       (e ∈ (validate_frontmatter p fm).1 ∨ e ∈ (validate_file_references os p fm).1)) ∨
    e ∈ validate_markdown_structure p (extract_frontmatter parse p content).2.1 := by
  unfold validate_file at h
  rw [if_neg (by simp [hpe]), hrd] at h
  dsimp only at h
  rcases hex : extract_frontmatter parse p content with ⟨fmOpt, body, errs1⟩
  rw [hex] at h
  cases fmOpt with
  | none =>
    dsimp only at h
    simp only [Except.ok.injEq] at h
    subst h
    rcases List.mem_append.mp he with hm | hm
    · exact Or.inl hm
    · exact Or.inr (Or.inr hm)
  | some fm =>
    dsimp only at h
    cases hp : fmIsNotNone fm with
    | false =>
      rw [if_neg (by simp [hp])] at h
      simp only [Except.ok.injEq] at h
      subst h
      rcases List.mem_append.mp he with hm | hm
      · exact Or.inl hm
      · exact Or.inr (Or.inr hm)
    | true =>
      rw [if_pos hp] at h
      rcases hvfm : validate_frontmatter p fm with ⟨fmErrs, rvfm⟩
      rw [hvfm] at h
      cases rvfm with
      | some r => cases h
      | none =>
          dsimp only at h
          rcases hvfr : validate_file_references os p fm with ⟨refErrs, rvfr⟩
          rw [hvfr] at h
          cases rvfr with
          | some r => cases h
          | none =>
            simp only [Except.ok.injEq] at h
            subst h
            rcases List.mem_append.mp he with hm | hm
            swap
            · exact Or.inr (Or.inr hm)
            rcases List.mem_append.mp hm with hm2 | hm2
            swap
            · refine Or.inr (Or.inl ⟨fm, rfl, Or.inr ?_⟩)
              rw [hvfr]
              exact hm2
            rcases List.mem_append.mp hm2 with hm3 | hm3
            · exact Or.inl hm3
            · refine Or.inr (Or.inl ⟨fm, rfl, Or.inl ?_⟩)
              rw [hvfm]
              exact hm3

/-- Claim C4 (counterexample): the content `----x` does not begin with a
`---` delimiter line (its only line is `----x`), yet `validate_file` emits
no `MISSING_FRONTMATTER` — the code only tests the three-character prefix
`---` — and instead reports `INVALID_FRONTMATTER` for the unclosed block. -/
theorem C4_counterexample :
    retErrTypes (validate_file (osOf ["f.md"] [("f.md", "----x")] []) obsParse [] "f.md") =
      ["INVALID_FRONTMATTER", "MISSING_SECTION", "MISSING_SECTION", "MISSING_SECTION"] ∧
    splitNl "----x" = ["----x"] := by
  constructor
  · rfl
  · rfl

/-- Claim C4 (amended): `validate_file` emits `MISSING_FRONTMATTER` if and
only if the content does not start with the three-character prefix `---`
(the first line need not be exactly `---`); when emitted it is the only
error of that type, frontmatter is absent, and the body checks run on the
whole original content. -/
theorem C4_claim (os : OsEnv) (parse : String → Except String YamlValue)
    (prev : List ValidationError) (p content : String)
    (hpe : os.pathExists p = true) (hrd : os.readFile p = .ok content) :
    (pyStartsWith "---" content = false →
       validate_file os parse prev p =
         .ok (mkErr p "MISSING_FRONTMATTER" "File must start with YAML frontmatter"
              :: validate_markdown_structure p content) ∧
       (retErrTypes (validate_file os parse prev p)).count "MISSING_FRONTMATTER" = 1) ∧
    (pyStartsWith "---" content = true →
       "MISSING_FRONTMATTER" ∉ retErrTypes (validate_file os parse prev p)) := by
  constructor
  · intro hs
    have hE : extract_frontmatter parse p content =
        (none, content, [mkErr p "MISSING_FRONTMATTER" "File must start with YAML frontmatter"]) := by
      unfold extract_frontmatter
      rw [if_pos hs]
    have hvf : validate_file os parse prev p =
        .ok (mkErr p "MISSING_FRONTMATTER" "File must start with YAML frontmatter"
             :: validate_markdown_structure p content) := by
      unfold validate_file
      rw [if_neg (by simp [hpe]), hrd]
      dsimp only
      rw [hE]
      rfl
    refine ⟨hvf, ?_⟩
    rw [hvf]
    have h0 : ("MISSING_FRONTMATTER" : String) ∉
        (validate_markdown_structure p content).map (fun e => e.error_type) := by
      intro hmem
      rcases List.mem_map.mp hmem with ⟨e2, he2, het⟩
      rcases vms_shape he2 with ⟨_, _, h3 | h3⟩ <;> rw [h3] at het <;>
        exact absurd het (by decide)
    simp [retErrTypes, mkErr, List.count_cons, List.count_eq_zero.mpr h0]
  · intro hs hmem
    cases hv : validate_file os parse prev p with
    | error r => rw [hv] at hmem; cases hmem
    | ok l =>
      rw [hv] at hmem
      rcases List.mem_map.mp hmem with ⟨e2, he2, het⟩
      rcases vf_ok_mem hv hpe hrd he2 with hc | ⟨fm, _, hc | hc⟩ | hc
      · rcases extract_shape_opened hs hc with h3 | h3 <;> rw [h3] at het <;>
          exact absurd het (by decide)
      · rcases vfm_shape hc with ⟨_, _, h3⟩
        rw [het] at h3
        revert h3
        decide
      · rcases vfr_shape hc with ⟨s2, rfl⟩
        simp [mkErr] at het
      · rcases vms_shape hc with ⟨_, _, h3 | h3⟩ <;> rw [h3] at het <;>
          exact absurd het (by decide)

/-- Claim C4 (witness at a concrete document without frontmatter). -/
theorem C4_witness :
    validate_file (osOf ["a.md"] [("a.md", "hello")] []) obsParse [] "a.md" =
      .ok (mkErr "a.md" "MISSING_FRONTMATTER" "File must start with YAML frontmatter"
           :: validate_markdown_structure "a.md" "hello") ∧
    (retErrTypes (validate_file (osOf ["a.md"] [("a.md", "hello")] []) obsParse [] "a.md")).count
        "MISSING_FRONTMATTER" = 1 :=
  (C4_claim (osOf ["a.md"] [("a.md", "hello")] []) obsParse [] "a.md" "hello"
    rfl rfl).1 rfl

/-- Claim C9 (confirmed): `validate_file` fails fast: a nonexistent path
returns exactly one `FILE_NOT_FOUND` error, an unreadable file returns
exactly one `READ_ERROR` error, and the result never depends on the state
of the error accumulator before the call (it is reset on entry). -/
theorem C9_claim (os : OsEnv) (parse : String → Except String YamlValue)
    (prev prev2 : List ValidationError) (p m : String) :
    (os.pathExists p = false →
       validate_file os parse prev p = .ok [mkErr p "FILE_NOT_FOUND" "File does not exist"]) ∧
    (os.pathExists p = true → os.readFile p = .error m →
       validate_file os parse prev p =
         .ok [mkErr p "READ_ERROR" ("Cannot read file: " ++ m)]) ∧
    validate_file os parse prev p = validate_file os parse prev2 p := by
  refine ⟨?_, ?_, rfl⟩
  · intro h
    unfold validate_file
    rw [if_pos h]
  · intro h1 h2
    unfold validate_file
    rw [if_neg (by simp [h1]), h2]

/-- Claim C9 (witness at a nonexistent path). -/
theorem C9_witness :
    validate_file (osOf [] [] []) obsParse [] "nope.md" =
      .ok [mkErr "nope.md" "FILE_NOT_FOUND" "File does not exist"] :=
  (C9_claim (osOf [] [] []) obsParse [] [] "nope.md" "").1 rfl

theorem refCheck_eq (os : OsEnv) (p s : String) :
    refCheck os p (.str s) =
      if refResolves os p s then []
      else [mkErr p "MISSING_FILE_REFERENCE" (mfrMsg s)] := by
  unfold refCheck
  cases h1 : os.pathExists (pyJoin (pyDirname p) s) <;>
    cases hr : find_repo_root os p <;>
      simp [refResolves, h1, hr]

theorem mfrMsg_inj {a b : String} (h : mfrMsg a = mfrMsg b) : a = b := by
  unfold mfrMsg at h
  have hd := congrArg String.data h
  simp only [strData_append, List.append_assoc] at hd
  have h2 := List.append_cancel_left hd
  exact strInj (List.append_cancel_right h2)

theorem mem_refLoop {os : OsEnv} {p : String} {refs : List YamlValue} {e : ValidationError}
    (h : e ∈ appendMap (refCheck os p) refs) :
    ∃ s, YamlValue.str s ∈ refs ∧ refResolves os p s = false ∧
      e = mkErr p "MISSING_FILE_REFERENCE" (mfrMsg s) := by
  rcases mem_appendMap.mp h with ⟨a, ha, he⟩
  cases a with
  | str s =>
    rw [refCheck_eq] at he
    cases hres : refResolves os p s with
    | true => rw [hres] at he; simp at he
    | false =>
      rw [hres] at he
      simp at he
      exact ⟨s, ha, hres, he⟩
  | int n => simp [refCheck] at he
  | float f => simp [refCheck] at he
  | bool b => simp [refCheck] at he
  | null => simp [refCheck] at he
  | list xs => simp [refCheck] at he
  | dict kvs => simp [refCheck] at he

theorem refLoop_length (os : OsEnv) (p : String) :
    ∀ refs : List YamlValue,
      (appendMap (refCheck os p) refs).length = refs.countP (refFails os p) := by
  intro refs
  induction refs with
  | nil => rfl
  | cons x xs ih =>
    simp only [appendMap, List.length_append, List.countP_cons, ih]
    cases x with
    | str s =>
      rw [refCheck_eq]
      cases hres : refResolves os p s <;> simp [refFails, hres, Nat.add_comm]
    | int n => simp [refCheck, refFails]
    | float f => simp [refCheck, refFails]
    | bool b => simp [refCheck, refFails]
    | null => simp [refCheck, refFails]
    | list ys => simp [refCheck, refFails]
    | dict kvs2 => simp [refCheck, refFails]

theorem vfr_dict_none {os : OsEnv} {p : String} {kvs : List (String × YamlValue)}
    (h : dictLookup kvs "file_references" = none) :
    validate_file_references os p (.dict kvs) = ([], none) := by
  unfold validate_file_references
  have h2 : lookupS kvs "file_references" = none := h
  have hc : pyContains "file_references" (.dict kvs) = .ok false := by
    simp [pyContains, dictLookup, h2]
  rw [hc]

theorem vfr_dict_some {os : OsEnv} {p : String} {kvs : List (String × YamlValue)}
    {v : YamlValue} (h : dictLookup kvs "file_references" = some v) :
    validate_file_references os p (.dict kvs) = refSegment os p v := by
  unfold validate_file_references
  have h2 : lookupS kvs "file_references" = some v := h
  have hc : pyContains "file_references" (.dict kvs) = .ok true := by
    simp [pyContains, dictLookup, h2]
  have hs2 : pySubscript (.dict kvs) "file_references" = .ok v := by
    simp [pySubscript, dictLookup, h2]
  rw [hc, hs2]
  cases v <;> rfl

/-- Claim C7 (confirmed): for a frontmatter mapping, the file-reference
check is a no-op when `file_references` is absent or not a list; when it is
a list, a `MISSING_FILE_REFERENCE` error naming a string element `ref` is
emitted if and only if `ref` resolves neither relative to the document's
directory nor relative to the repository root (walking parents upward for a
`.git` marker; no marker found means the fallback is skipped), and
non-string elements are silently skipped (the emitted errors are counted
exactly by the failing string elements). -/
theorem C7_claim (os : OsEnv) (p : String) (kvs : List (String × YamlValue))
    (v : YamlValue) (ref : String) :
    (dictLookup kvs "file_references" = none →
       validate_file_references os p (.dict kvs) = ([], none)) ∧
    (dictLookup kvs "file_references" = some v → isList v = false →
       validate_file_references os p (.dict kvs) = ([], none)) ∧
    (dictLookup kvs "file_references" = some v → YamlValue.str ref ∈ listElems v →
       ((mkErr p "MISSING_FILE_REFERENCE" (mfrMsg ref) ∈
           (validate_file_references os p (.dict kvs)).1) ↔
         refResolves os p ref = false)) ∧
    (dictLookup kvs "file_references" = some v →
       (validate_file_references os p (.dict kvs)).1.length =
         (listElems v).countP (refFails os p) ∧
       (validate_file_references os p (.dict kvs)).2 = none) := by
  refine ⟨fun h => vfr_dict_none h, ?_, ?_, ?_⟩
  · intro h hnl
    rw [vfr_dict_some h]
    cases v <;> simp [isList, refSegment] at hnl ⊢
  · intro h hmem
    rw [vfr_dict_some h]
    cases v with
    | list refs =>
      simp only [listElems] at hmem
      simp only [refSegment]
      constructor
      · intro hin
        rcases mem_refLoop hin with ⟨s, _, hres, heq⟩
        have hmsg : mfrMsg ref = mfrMsg s := by
          have := congrArg ValidationError.message heq
          simpa [mkErr] using this
        rw [mfrMsg_inj hmsg]
        exact hres
      · intro hres
        apply mem_appendMap.mpr
        refine ⟨.str ref, hmem, ?_⟩
        rw [refCheck_eq, hres]
        simp
    | str s => simp [listElems] at hmem
    | int n => simp [listElems] at hmem
    | float f => simp [listElems] at hmem
    | bool b => simp [listElems] at hmem
    | null => simp [listElems] at hmem
    | dict kvs2 => simp [listElems] at hmem
  · intro h
    rw [vfr_dict_some h]
    cases v <;> simp [listElems, refSegment, refLoop_length]

/-- Claim C7 (witness at a concrete repository layout). -/
theorem C7_witness :
    (mkErr "/a/b/doc.md" "MISSING_FILE_REFERENCE" (mfrMsg "missing.md") ∈
        (validate_file_references (osOf ["/a/.git", "/a/ok.md"] [] []) "/a/b/doc.md"
          (.dict [("file_references",
            .list [.str "ok.md", .str "missing.md", .int 3])])).1) ↔
      refResolves (osOf ["/a/.git", "/a/ok.md"] [] []) "/a/b/doc.md" "missing.md" = false :=
  (C7_claim (osOf ["/a/.git", "/a/ok.md"] [] []) "/a/b/doc.md"
    [("file_references", .list [.str "ok.md", .str "missing.md", .int 3])]
    (.list [.str "ok.md", .str "missing.md", .int 3]) "missing.md").2.2.1 rfl
    (List.Mem.tail _ (List.Mem.head _))

theorem filesResults_append (os : OsEnv) (parse : String → Except String YamlValue) :
    ∀ l1 l2 : List String,
      filesResults os parse (l1 ++ l2) =
        match filesResults os parse l1 with
        | .error e => .error e
        | .ok r1 =>
          match filesResults os parse l2 with
          | .error e => .error e
          | .ok r2 => .ok (r1 ++ r2) := by
  intro l1 l2
  induction l1 with
  | nil =>
    cases h2 : filesResults os parse l2 <;> simp [filesResults, h2]
  | cons f fs ih =>
    simp only [List.cons_append, filesResults]
    cases hv : validate_file os parse [] f with
    | error e => rfl
    | ok errs =>
      dsimp only
      rw [List.append_eq, ih]
      cases h1 : filesResults os parse fs <;>
        cases h2 : filesResults os parse l2 <;> rfl

theorem dirFileStep_eq (os : OsEnv) (parse : String → Except String YamlValue)
    (root : String) :
    ∀ (files : List String) (acc : List (String × List ValidationError)),
      dirFileStep os parse root files acc =
        match filesResults os parse ((files.filter mdFileFilter).map (pyJoin root)) with
        | .error e => .error e
        | .ok r => .ok (acc ++ r) := by
  intro files
  induction files with
  | nil => intro acc; simp [dirFileStep, filesResults]
  | cons f fs ih =>
    intro acc
    cases hf : mdFileFilter f with
    | false =>
      simp only [dirFileStep, hf, Bool.false_eq_true, if_false, List.filter_cons, ih]
    | true =>
      simp only [dirFileStep, hf, if_true, List.filter_cons, List.map_cons, filesResults]
      cases hv : validate_file os parse [] (pyJoin root f) with
      | error e => rfl
      | ok errs =>
        dsimp only
        rw [ih]
        cases h1 : filesResults os parse ((fs.filter mdFileFilter).map (pyJoin root)) with
        | error e => rfl
        | ok r => simp

theorem dirWalkStep_eq (os : OsEnv) (parse : String → Except String YamlValue) :
    ∀ (entries : List (String × List String)) (acc : List (String × List ValidationError)),
      dirWalkStep os parse entries acc =
        match filesResults os parse
            (appendMap (fun e => (e.2.filter mdFileFilter).map (pyJoin e.1)) entries) with
        | .error e => .error e
        | .ok r => .ok (acc ++ r) := by
  intro entries
  induction entries with
  | nil => intro acc; simp [dirWalkStep, appendMap, filesResults]
  | cons rt rest ih =>
    intro acc
    simp only [dirWalkStep, appendMap]
    rw [dirFileStep_eq, filesResults_append]
    cases h1 : filesResults os parse ((rt.2.filter mdFileFilter).map (pyJoin rt.1)) with
    | error e => rfl
    | ok r1 =>
      dsimp only
      rw [ih]
      cases h2 : filesResults os parse
          (appendMap (fun e => (e.2.filter mdFileFilter).map (pyJoin e.1)) rest) with
      | error e => rfl
      | ok r2 => simp

/-- Claim C8 (confirmed): `validate_directory` returns a single
`DIRECTORY_NOT_FOUND` error keyed by the root for a nonexistent root; for
an existing root it visits exactly the walked files whose name ends in
`.md` (case-sensitively) and is not case-insensitively `README.MD`, runs
single-file validation on each, and maps every visited path to its error
list (empty lists included). -/
theorem C8_claim (os : OsEnv) (parse : String → Except String YamlValue) (dir : String) :
    (os.pathExists dir = false →
       validate_directory os parse dir =
         .ok [(dir, [mkErr dir "DIRECTORY_NOT_FOUND" "Directory does not exist"])]) ∧
    (os.pathExists dir = true →
       validate_directory os parse dir = filesResults os parse (visitedFiles os dir)) := by
  constructor
  · intro h
    unfold validate_directory
    rw [if_pos h]
  · intro h
    unfold validate_directory
    rw [if_neg (by simp [h]), dirWalkStep_eq]
    unfold visitedFiles
    cases hf : filesResults os parse
        (appendMap (fun e => (e.2.filter mdFileFilter).map (pyJoin e.1)) (os.walk dir)) with
    | error e => rfl
    | ok r => simp

/-- Claim C8 (witness at a concrete directory tree: `a.md` is visited,
`README.md` and `b.txt` are not). -/
theorem C8_witness :
    validate_directory (osOf ["r", "r/a.md"] [("r/a.md", "hello")]
        [("r", ["a.md", "README.md", "b.txt"])]) obsParse "r" =
      filesResults (osOf ["r", "r/a.md"] [("r/a.md", "hello")]
        [("r", ["a.md", "README.md", "b.txt"])]) obsParse
        (visitedFiles (osOf ["r", "r/a.md"] [("r/a.md", "hello")]
          [("r", ["a.md", "README.md", "b.txt"])]) "r") :=
  (C8_claim (osOf ["r", "r/a.md"] [("r/a.md", "hello")]
    [("r", ["a.md", "README.md", "b.txt"])]) obsParse "r").2 rfl

/-! Support for claim C5: counting and filtering over the frontmatter
validation segments. -/

theorem vfm_dict_all {p : String} {kvs : List (String × YamlValue)}
    {q : ValidationError → Bool}
    (h1 : (requiredFieldErrors p kvs).all q = true)
    (h2 : (catRes p kvs).1.all q = true)
    (h3 : (inclRes p kvs).1.all q = true)
    (h4 : (tagsErrors p kvs).all q = true)
    (h5 : (optionalFieldErrors p kvs).all q = true) :
    (validate_frontmatter p (.dict kvs)).1.all q = true := by
  rw [vfm_dict_eq]
  rcases hc : catRes p kvs with ⟨ce, rc⟩
  rw [hc] at h2
  cases rc with
  | some r => simp_all [List.all_append]
  | none =>
    rcases hi : inclRes p kvs with ⟨ie, ri⟩
    rw [hi] at h3
    cases ri with
    | some r => simp_all [List.all_append]
    | none => simp_all [List.all_append]

theorem vfm_dict_count {p : String} {kvs : List (String × YamlValue)}
    {x : ValidationError}
    (h1 : (requiredFieldErrors p kvs).count x = 1)
    (h2 : (catRes p kvs).1.count x = 0)
    (h3 : (inclRes p kvs).1.count x = 0)
    (h4 : (tagsErrors p kvs).count x = 0)
    (h5 : (optionalFieldErrors p kvs).count x = 0) :
    (validate_frontmatter p (.dict kvs)).1.count x = 1 := by
  rw [vfm_dict_eq]
  rcases hc : catRes p kvs with ⟨ce, rc⟩
  rw [hc] at h2
  cases rc with
  | some r => simp_all [List.count_append]
  | none =>
    rcases hi : inclRes p kvs with ⟨ie, ri⟩
    rw [hi] at h3
    cases ri with
    | some r => simp_all [List.count_append]
    | none => simp_all [List.count_append]

theorem vfm_dict_mem_req {p : String} {kvs : List (String × YamlValue)}
    {e : ValidationError} (h : e ∈ requiredFieldErrors p kvs) :
    e ∈ (validate_frontmatter p (.dict kvs)).1 := by
  rw [vfm_dict_eq]
  rcases hc : catRes p kvs with ⟨ce, rc⟩
  cases rc with
  | some r => exact List.mem_append.mpr (Or.inl h)
  | none =>
    rcases hi : inclRes p kvs with ⟨ie, ri⟩
    cases ri with
    | some r => exact List.mem_append.mpr (Or.inl (List.mem_append.mpr (Or.inl h)))
    | none =>
      exact List.mem_append.mpr (Or.inl (List.mem_append.mpr (Or.inl
        (List.mem_append.mpr (Or.inl (List.mem_append.mpr (Or.inl h)))))))

theorem count_slot_missing_self (p : String) (kvs : List (String × YamlValue))
    (f : String) (ty : PyType) (hnone : dictLookup kvs f = none) :
    (requiredFieldCheck p kvs (f, ty)).count
      (mkErr p "MISSING_REQUIRED_FIELD" (missMsg f)) = 1 := by
  simp [requiredFieldCheck, hnone]

theorem count_slot_ne (p : String) (kvs : List (String × YamlValue))
    (g : String) (ty2 : PyType) (f : String) (hne : ¬ (missMsg g = missMsg f)) :
    (requiredFieldCheck p kvs (g, ty2)).count
      (mkErr p "MISSING_REQUIRED_FIELD" (missMsg f)) = 0 := by
  rw [List.count_eq_zero]
  intro hmem
  rcases mem_reqCheck hmem with ⟨_, he⟩ | ⟨v, _, _, he⟩
  · have := congrArg ValidationError.message he
    simp [mkErr] at this
    exact hne this.symm
  · have := congrArg ValidationError.error_type he
    simp [mkErr] at this

theorem cat_count_zero (p : String) (kvs : List (String × YamlValue))
    (x : ValidationError) (hx : x.error_type ≠ "INVALID_CATEGORY") :
    (catRes p kvs).1.count x = 0 := by
  rw [List.count_eq_zero]
  intro hmem
  rcases mem_catRes hmem with ⟨v, _, he⟩
  subst he
  exact hx rfl

theorem incl_count_zero (p : String) (kvs : List (String × YamlValue))
    (x : ValidationError) (hx : x.error_type ≠ "INVALID_INCLUSION") :
    (inclRes p kvs).1.count x = 0 := by
  rw [List.count_eq_zero]
  intro hmem
  rcases mem_inclRes hmem with ⟨v, _, he⟩
  subst he
  exact hx rfl

theorem tags_count_zero (p : String) (kvs : List (String × YamlValue))
    (x : ValidationError)
    (hx : x.error_type ≠ "EMPTY_TAGS" ∧ x.error_type ≠ "INVALID_TAG_TYPE" ∧
      x.error_type ≠ "INVALID_TAGS") :
    (tagsErrors p kvs).count x = 0 := by
  rw [List.count_eq_zero]
  intro hmem
  rcases mem_tagsErrors hmem with he | he | he <;> subst he
  · exact hx.1 rfl
  · exact hx.2.1 rfl
  · exact hx.2.2 rfl

theorem opt_count_zero (p : String) (kvs : List (String × YamlValue))
    (x : ValidationError) (hx : x.error_type ≠ "INVALID_FIELD_TYPE") :
    (optionalFieldErrors p kvs).count x = 0 := by
  rw [List.count_eq_zero]
  intro hmem
  rcases mem_appendMap.mp hmem with ⟨fty, _, hin⟩
  rcases mem_optCheck hin with ⟨v, _, _, he⟩
  subst he
  exact hx rfl

theorem mem_slot_typeErr (p : String) (kvs : List (String × YamlValue))
    (f : String) (ty : PyType) (v : YamlValue)
    (hsome : dictLookup kvs f = some v) (hty : typeMatches v ty = false) :
    mkErr p "INVALID_FIELD_TYPE" (typeMsgS f (tyName ty) (typeName v)) ∈
      requiredFieldCheck p kvs (f, ty) := by
  simp [requiredFieldCheck, hsome, hty]

theorem typeMsgS_decomp (g a b : String) :
    typeMsgS g a b = "Field '" ++ g ++ ("' must be of type " ++ a ++ ", got " ++ b) := by
  apply strInj
  simp [typeMsgS, strData_append, List.append_assoc]

theorem strPre_field_false (f g rest : String)
    (h1 : listPre f.data g.data = false) (h2 : listPre g.data f.data = false) :
    strPre ("Field '" ++ f ++ "'") ("Field '" ++ g ++ rest) = false :=
  strPre_mid_false "Field '" f g "'" rest h1 h2

theorem all_q1_selfslot (p : String) (kvs : List (String × YamlValue))
    (f : String) (ty : PyType) (hnone : dictLookup kvs f = none) :
    (requiredFieldCheck p kvs (f, ty)).all
      (fun e => !(e.error_type == "INVALID_FIELD_TYPE" &&
        strPre ("Field '" ++ f ++ "'") e.message)) = true := by
  simp [requiredFieldCheck, hnone, mkErr]

theorem all_q1_reqslot (p : String) (kvs : List (String × YamlValue))
    (f g : String) (ty2 : PyType)
    (h1 : listPre f.data g.data = false) (h2 : listPre g.data f.data = false) :
    (requiredFieldCheck p kvs (g, ty2)).all
      (fun e => !(e.error_type == "INVALID_FIELD_TYPE" &&
        strPre ("Field '" ++ f ++ "'") e.message)) = true := by
  apply List.all_eq_true.mpr
  intro e he
  rcases mem_reqCheck he with ⟨_, rfl⟩ | ⟨v, _, _, rfl⟩
  · simp [mkErr]
  · simp [mkErr, typeMsgS_decomp, strPre_field_false f g _ h1 h2]

theorem all_q1_optslot (p : String) (kvs : List (String × YamlValue))
    (f g : String) (ty2 : PyType)
    (h1 : listPre f.data g.data = false) (h2 : listPre g.data f.data = false) :
    (optionalFieldCheck p kvs (g, ty2)).all
      (fun e => !(e.error_type == "INVALID_FIELD_TYPE" &&
        strPre ("Field '" ++ f ++ "'") e.message)) = true := by
  apply List.all_eq_true.mpr
  intro e he
  rcases mem_optCheck he with ⟨v, _, _, rfl⟩
  simp [mkErr, typeMsgS_decomp, strPre_field_false f g _ h1 h2]

theorem all_q1_cat (p : String) (kvs : List (String × YamlValue)) (f : String) :
    (catRes p kvs).1.all
      (fun e => !(e.error_type == "INVALID_FIELD_TYPE" &&
        strPre ("Field '" ++ f ++ "'") e.message)) = true := by
  apply List.all_eq_true.mpr
  intro e he
  rcases mem_catRes he with ⟨v, _, rfl⟩
  simp [mkErr]

theorem all_q1_incl (p : String) (kvs : List (String × YamlValue)) (f : String) :
    (inclRes p kvs).1.all
      (fun e => !(e.error_type == "INVALID_FIELD_TYPE" &&
        strPre ("Field '" ++ f ++ "'") e.message)) = true := by
  apply List.all_eq_true.mpr
  intro e he
  rcases mem_inclRes he with ⟨v, _, rfl⟩
  simp [mkErr]

theorem all_q1_tags (p : String) (kvs : List (String × YamlValue)) (f : String) :
    (tagsErrors p kvs).all
      (fun e => !(e.error_type == "INVALID_FIELD_TYPE" &&
        strPre ("Field '" ++ f ++ "'") e.message)) = true := by
  apply List.all_eq_true.mpr
  intro e he
  rcases mem_tagsErrors he with rfl | rfl | rfl <;> simp [mkErr]

theorem all_q2_typeslot (p : String) (kvs : List (String × YamlValue))
    (f : String) (ty : PyType) (v : YamlValue)
    (hsome : dictLookup kvs f = some v) (hty : typeMatches v ty = false) :
    (requiredFieldCheck p kvs (f, ty)).all
      (fun e => !(e.error_type == "MISSING_REQUIRED_FIELD" &&
        e.message == missMsg f)) = true := by
  simp [requiredFieldCheck, hsome, hty, mkErr]

theorem all_q2_reqslot (p : String) (kvs : List (String × YamlValue))
    (f g : String) (ty2 : PyType) (hne : ¬ (missMsg g = missMsg f)) :
    (requiredFieldCheck p kvs (g, ty2)).all
      (fun e => !(e.error_type == "MISSING_REQUIRED_FIELD" &&
        e.message == missMsg f)) = true := by
  apply List.all_eq_true.mpr
  intro e he
  rcases mem_reqCheck he with ⟨_, rfl⟩ | ⟨v, _, _, rfl⟩
  · simp [mkErr, hne]
  · simp [mkErr]

theorem all_q2_cat (p : String) (kvs : List (String × YamlValue)) (f : String) :
    (catRes p kvs).1.all
      (fun e => !(e.error_type == "MISSING_REQUIRED_FIELD" &&
        e.message == missMsg f)) = true := by
  apply List.all_eq_true.mpr
  intro e he
  rcases mem_catRes he with ⟨v, _, rfl⟩
  simp [mkErr]

theorem all_q2_incl (p : String) (kvs : List (String × YamlValue)) (f : String) :
    (inclRes p kvs).1.all
      (fun e => !(e.error_type == "MISSING_REQUIRED_FIELD" &&
        e.message == missMsg f)) = true := by
  apply List.all_eq_true.mpr
  intro e he
  rcases mem_inclRes he with ⟨v, _, rfl⟩
  simp [mkErr]

theorem all_q2_tags (p : String) (kvs : List (String × YamlValue)) (f : String) :
    (tagsErrors p kvs).all
      (fun e => !(e.error_type == "MISSING_REQUIRED_FIELD" &&
        e.message == missMsg f)) = true := by
  apply List.all_eq_true.mpr
  intro e he
  rcases mem_tagsErrors he with rfl | rfl | rfl <;> simp [mkErr]

theorem all_q2_opt (p : String) (kvs : List (String × YamlValue)) (f : String) :
    (optionalFieldErrors p kvs).all
      (fun e => !(e.error_type == "MISSING_REQUIRED_FIELD" &&
        e.message == missMsg f)) = true := by
  apply List.all_eq_true.mpr
  intro e he
  rcases mem_appendMap.mp he with ⟨fty, _, hin⟩
  rcases mem_optCheck hin with ⟨v, _, _, rfl⟩
  simp [mkErr]

/-- Claim C5 (confirmed): for a frontmatter mapping and each required field,
a missing key yields exactly one `MISSING_REQUIRED_FIELD` error for that
field and no `INVALID_FIELD_TYPE` error naming that field; a present key of
the wrong type yields an `INVALID_FIELD_TYPE` error naming the expected and
actual types and no `MISSING_REQUIRED_FIELD` error for that field. -/
theorem C5_claim (p : String) (kvs : List (String × YamlValue)) (f : String)
    (ty : PyType) (v : YamlValue) (hmem : (f, ty) ∈ REQUIRED_FIELDS) :
    (dictLookup kvs f = none →
       (validate_frontmatter p (.dict kvs)).1.count
           (mkErr p "MISSING_REQUIRED_FIELD" (missMsg f)) = 1 ∧
       (validate_frontmatter p (.dict kvs)).1.all
           (fun e => !(e.error_type == "INVALID_FIELD_TYPE" &&
             strPre ("Field '" ++ f ++ "'") e.message)) = true) ∧
    (dictLookup kvs f = some v → typeMatches v ty = false →
       (mkErr p "INVALID_FIELD_TYPE" (typeMsgS f (tyName ty) (typeName v)) ∈
           (validate_frontmatter p (.dict kvs)).1) ∧
       (validate_frontmatter p (.dict kvs)).1.all
           (fun e => !(e.error_type == "MISSING_REQUIRED_FIELD" &&
             e.message == missMsg f)) = true) := by
  have hmem5 : (f, ty) = ("title", PyType.strT) ∨ (f, ty) = ("description", PyType.strT) ∨
      (f, ty) = ("category", PyType.strT) ∨ (f, ty) = ("tags", PyType.listT) ∨
      (f, ty) = ("inclusion", PyType.strT) := by
    simpa [REQUIRED_FIELDS] using hmem
  rcases hmem5 with h5 | h5 | h5 | h5 | h5 <;>
      (injection h5 with hf2 ht2; subst hf2; subst ht2)

  · constructor
    · intro hnone
      constructor
      · apply vfm_dict_count
        · simp only [requiredFieldErrors, REQUIRED_FIELDS, appendMap, List.append_nil,
            List.count_append]
          rw [count_slot_missing_self p kvs "title" PyType.strT hnone,
              count_slot_ne p kvs "description" PyType.strT "title" (by decide),
              count_slot_ne p kvs "category" PyType.strT "title" (by decide),
              count_slot_ne p kvs "tags" PyType.listT "title" (by decide),
              count_slot_ne p kvs "inclusion" PyType.strT "title" (by decide)]
        · exact cat_count_zero p kvs _ (by simp [mkErr])
        · exact incl_count_zero p kvs _ (by simp [mkErr])
        · exact tags_count_zero p kvs _ ⟨by simp [mkErr], by simp [mkErr], by simp [mkErr]⟩
        · exact opt_count_zero p kvs _ (by simp [mkErr])
      · apply vfm_dict_all
        · simp only [requiredFieldErrors, REQUIRED_FIELDS, appendMap, List.append_nil,
            List.all_append, Bool.and_eq_true]
          refine ⟨?_, ?_, ?_, ?_, ?_⟩
          · exact all_q1_selfslot p kvs "title" PyType.strT hnone
          · exact all_q1_reqslot p kvs "title" "description" PyType.strT (by decide) (by decide)
          · exact all_q1_reqslot p kvs "title" "category" PyType.strT (by decide) (by decide)
          · exact all_q1_reqslot p kvs "title" "tags" PyType.listT (by decide) (by decide)
          · exact all_q1_reqslot p kvs "title" "inclusion" PyType.strT (by decide) (by decide)
        · exact all_q1_cat p kvs "title"
        · exact all_q1_incl p kvs "title"
        · exact all_q1_tags p kvs "title"
        · simp only [optionalFieldErrors, OPTIONAL_FIELDS, appendMap, List.append_nil,
            List.all_append, Bool.and_eq_true]
          refine ⟨?_, ?_, ?_, ?_, ?_⟩
          · exact all_q1_optslot p kvs "title" "author" PyType.strT (by decide) (by decide)
          · exact all_q1_optslot p kvs "title" "version" PyType.strT (by decide) (by decide)
          · exact all_q1_optslot p kvs "title" "kiro_version" PyType.strT (by decide) (by decide)
          · exact all_q1_optslot p kvs "title" "dependencies" PyType.listT (by decide) (by decide)
          · exact all_q1_optslot p kvs "title" "file_references" PyType.listT (by decide) (by decide)
    · intro hsome hty
      constructor
      · apply vfm_dict_mem_req
        exact mem_appendMap.mpr ⟨("title", PyType.strT), by simp [REQUIRED_FIELDS],
          mem_slot_typeErr p kvs "title" PyType.strT v hsome hty⟩
      · apply vfm_dict_all
        · simp only [requiredFieldErrors, REQUIRED_FIELDS, appendMap, List.append_nil,
            List.all_append, Bool.and_eq_true]
          refine ⟨?_, ?_, ?_, ?_, ?_⟩
          · exact all_q2_typeslot p kvs "title" PyType.strT v hsome hty
          · exact all_q2_reqslot p kvs "title" "description" PyType.strT (by decide)
          · exact all_q2_reqslot p kvs "title" "category" PyType.strT (by decide)
          · exact all_q2_reqslot p kvs "title" "tags" PyType.listT (by decide)
          · exact all_q2_reqslot p kvs "title" "inclusion" PyType.strT (by decide)
        · exact all_q2_cat p kvs "title"
        · exact all_q2_incl p kvs "title"
        · exact all_q2_tags p kvs "title"
        · exact all_q2_opt p kvs "title"
  · constructor
    · intro hnone
      constructor
      · apply vfm_dict_count
        · simp only [requiredFieldErrors, REQUIRED_FIELDS, appendMap, List.append_nil,
            List.count_append]
          rw [count_slot_missing_self p kvs "description" PyType.strT hnone,
              count_slot_ne p kvs "title" PyType.strT "description" (by decide),
              count_slot_ne p kvs "category" PyType.strT "description" (by decide),
              count_slot_ne p kvs "tags" PyType.listT "description" (by decide),
              count_slot_ne p kvs "inclusion" PyType.strT "description" (by decide)]
        · exact cat_count_zero p kvs _ (by simp [mkErr])
        · exact incl_count_zero p kvs _ (by simp [mkErr])
        · exact tags_count_zero p kvs _ ⟨by simp [mkErr], by simp [mkErr], by simp [mkErr]⟩
        · exact opt_count_zero p kvs _ (by simp [mkErr])
      · apply vfm_dict_all
        · simp only [requiredFieldErrors, REQUIRED_FIELDS, appendMap, List.append_nil,
            List.all_append, Bool.and_eq_true]
          refine ⟨?_, ?_, ?_, ?_, ?_⟩
          · exact all_q1_reqslot p kvs "description" "title" PyType.strT (by decide) (by decide)
          · exact all_q1_selfslot p kvs "description" PyType.strT hnone
          · exact all_q1_reqslot p kvs "description" "category" PyType.strT (by decide) (by decide)
          · exact all_q1_reqslot p kvs "description" "tags" PyType.listT (by decide) (by decide)
          · exact all_q1_reqslot p kvs "description" "inclusion" PyType.strT (by decide) (by decide)
        · exact all_q1_cat p kvs "description"
        · exact all_q1_incl p kvs "description"
        · exact all_q1_tags p kvs "description"
        · simp only [optionalFieldErrors, OPTIONAL_FIELDS, appendMap, List.append_nil,
            List.all_append, Bool.and_eq_true]
          refine ⟨?_, ?_, ?_, ?_, ?_⟩
          · exact all_q1_optslot p kvs "description" "author" PyType.strT (by decide) (by decide)
          · exact all_q1_optslot p kvs "description" "version" PyType.strT (by decide) (by decide)
          · exact all_q1_optslot p kvs "description" "kiro_version" PyType.strT (by decide) (by decide)
          · exact all_q1_optslot p kvs "description" "dependencies" PyType.listT (by decide) (by decide)
          · exact all_q1_optslot p kvs "description" "file_references" PyType.listT (by decide) (by decide)
    · intro hsome hty
      constructor
      · apply vfm_dict_mem_req
        exact mem_appendMap.mpr ⟨("description", PyType.strT), by simp [REQUIRED_FIELDS],
          mem_slot_typeErr p kvs "description" PyType.strT v hsome hty⟩
      · apply vfm_dict_all
        · simp only [requiredFieldErrors, REQUIRED_FIELDS, appendMap, List.append_nil,
            List.all_append, Bool.and_eq_true]
          refine ⟨?_, ?_, ?_, ?_, ?_⟩
          · exact all_q2_reqslot p kvs "description" "title" PyType.strT (by decide)
          · exact all_q2_typeslot p kvs "description" PyType.strT v hsome hty
          · exact all_q2_reqslot p kvs "description" "category" PyType.strT (by decide)
          · exact all_q2_reqslot p kvs "description" "tags" PyType.listT (by decide)
          · exact all_q2_reqslot p kvs "description" "inclusion" PyType.strT (by decide)
        · exact all_q2_cat p kvs "description"
        · exact all_q2_incl p kvs "description"
        · exact all_q2_tags p kvs "description"
        · exact all_q2_opt p kvs "description"
  · constructor
    · intro hnone
      constructor
      · apply vfm_dict_count
        · simp only [requiredFieldErrors, REQUIRED_FIELDS, appendMap, List.append_nil,
            List.count_append]
          rw [count_slot_missing_self p kvs "category" PyType.strT hnone,
              count_slot_ne p kvs "title" PyType.strT "category" (by decide),
              count_slot_ne p kvs "description" PyType.strT "category" (by decide),
              count_slot_ne p kvs "tags" PyType.listT "category" (by decide),
              count_slot_ne p kvs "inclusion" PyType.strT "category" (by decide)]
        · exact cat_count_zero p kvs _ (by simp [mkErr])
        · exact incl_count_zero p kvs _ (by simp [mkErr])
        · exact tags_count_zero p kvs _ ⟨by simp [mkErr], by simp [mkErr], by simp [mkErr]⟩
        · exact opt_count_zero p kvs _ (by simp [mkErr])
      · apply vfm_dict_all
        · simp only [requiredFieldErrors, REQUIRED_FIELDS, appendMap, List.append_nil,
            List.all_append, Bool.and_eq_true]
          refine ⟨?_, ?_, ?_, ?_, ?_⟩
          · exact all_q1_reqslot p kvs "category" "title" PyType.strT (by decide) (by decide)
          · exact all_q1_reqslot p kvs "category" "description" PyType.strT (by decide) (by decide)
          · exact all_q1_selfslot p kvs "category" PyType.strT hnone
          · exact all_q1_reqslot p kvs "category" "tags" PyType.listT (by decide) (by decide)
          · exact all_q1_reqslot p kvs "category" "inclusion" PyType.strT (by decide) (by decide)
        · exact all_q1_cat p kvs "category"
        · exact all_q1_incl p kvs "category"
        · exact all_q1_tags p kvs "category"
        · simp only [optionalFieldErrors, OPTIONAL_FIELDS, appendMap, List.append_nil,
            List.all_append, Bool.and_eq_true]
          refine ⟨?_, ?_, ?_, ?_, ?_⟩
          · exact all_q1_optslot p kvs "category" "author" PyType.strT (by decide) (by decide)
          · exact all_q1_optslot p kvs "category" "version" PyType.strT (by decide) (by decide)
          · exact all_q1_optslot p kvs "category" "kiro_version" PyType.strT (by decide) (by decide)
          · exact all_q1_optslot p kvs "category" "dependencies" PyType.listT (by decide) (by decide)
          · exact all_q1_optslot p kvs "category" "file_references" PyType.listT (by decide) (by decide)
    · intro hsome hty
      constructor
      · apply vfm_dict_mem_req
        exact mem_appendMap.mpr ⟨("category", PyType.strT), by simp [REQUIRED_FIELDS],
          mem_slot_typeErr p kvs "category" PyType.strT v hsome hty⟩
      · apply vfm_dict_all
        · simp only [requiredFieldErrors, REQUIRED_FIELDS, appendMap, List.append_nil,
            List.all_append, Bool.and_eq_true]
          refine ⟨?_, ?_, ?_, ?_, ?_⟩
          · exact all_q2_reqslot p kvs "category" "title" PyType.strT (by decide)
          · exact all_q2_reqslot p kvs "category" "description" PyType.strT (by decide)
          · exact all_q2_typeslot p kvs "category" PyType.strT v hsome hty
          · exact all_q2_reqslot p kvs "category" "tags" PyType.listT (by decide)
          · exact all_q2_reqslot p kvs "category" "inclusion" PyType.strT (by decide)
        · exact all_q2_cat p kvs "category"
        · exact all_q2_incl p kvs "category"
        · exact all_q2_tags p kvs "category"
        · exact all_q2_opt p kvs "category"
  · constructor
    · intro hnone
      constructor
      · apply vfm_dict_count
        · simp only [requiredFieldErrors, REQUIRED_FIELDS, appendMap, List.append_nil,
            List.count_append]
          rw [count_slot_missing_self p kvs "tags" PyType.listT hnone,
              count_slot_ne p kvs "title" PyType.strT "tags" (by decide),
              count_slot_ne p kvs "description" PyType.strT "tags" (by decide),
              count_slot_ne p kvs "category" PyType.strT "tags" (by decide),
              count_slot_ne p kvs "inclusion" PyType.strT "tags" (by decide)]
        · exact cat_count_zero p kvs _ (by simp [mkErr])
        · exact incl_count_zero p kvs _ (by simp [mkErr])
        · exact tags_count_zero p kvs _ ⟨by simp [mkErr], by simp [mkErr], by simp [mkErr]⟩
        · exact opt_count_zero p kvs _ (by simp [mkErr])
      · apply vfm_dict_all
        · simp only [requiredFieldErrors, REQUIRED_FIELDS, appendMap, List.append_nil,
            List.all_append, Bool.and_eq_true]
          refine ⟨?_, ?_, ?_, ?_, ?_⟩
          · exact all_q1_reqslot p kvs "tags" "title" PyType.strT (by decide) (by decide)
          · exact all_q1_reqslot p kvs "tags" "description" PyType.strT (by decide) (by decide)
          · exact all_q1_reqslot p kvs "tags" "category" PyType.strT (by decide) (by decide)
          · exact all_q1_selfslot p kvs "tags" PyType.listT hnone
          · exact all_q1_reqslot p kvs "tags" "inclusion" PyType.strT (by decide) (by decide)
        · exact all_q1_cat p kvs "tags"
        · exact all_q1_incl p kvs "tags"
        · exact all_q1_tags p kvs "tags"
        · simp only [optionalFieldErrors, OPTIONAL_FIELDS, appendMap, List.append_nil,
            List.all_append, Bool.and_eq_true]
          refine ⟨?_, ?_, ?_, ?_, ?_⟩
          · exact all_q1_optslot p kvs "tags" "author" PyType.strT (by decide) (by decide)
          · exact all_q1_optslot p kvs "tags" "version" PyType.strT (by decide) (by decide)
          · exact all_q1_optslot p kvs "tags" "kiro_version" PyType.strT (by decide) (by decide)
          · exact all_q1_optslot p kvs "tags" "dependencies" PyType.listT (by decide) (by decide)
          · exact all_q1_optslot p kvs "tags" "file_references" PyType.listT (by decide) (by decide)
    · intro hsome hty
      constructor
      · apply vfm_dict_mem_req
        exact mem_appendMap.mpr ⟨("tags", PyType.listT), by simp [REQUIRED_FIELDS],
          mem_slot_typeErr p kvs "tags" PyType.listT v hsome hty⟩
      · apply vfm_dict_all
        · simp only [requiredFieldErrors, REQUIRED_FIELDS, appendMap, List.append_nil,
            List.all_append, Bool.and_eq_true]
          refine ⟨?_, ?_, ?_, ?_, ?_⟩
          · exact all_q2_reqslot p kvs "tags" "title" PyType.strT (by decide)
          · exact all_q2_reqslot p kvs "tags" "description" PyType.strT (by decide)
          · exact all_q2_reqslot p kvs "tags" "category" PyType.strT (by decide)
          · exact all_q2_typeslot p kvs "tags" PyType.listT v hsome hty
          · exact all_q2_reqslot p kvs "tags" "inclusion" PyType.strT (by decide)
        · exact all_q2_cat p kvs "tags"
        · exact all_q2_incl p kvs "tags"
        · exact all_q2_tags p kvs "tags"
        · exact all_q2_opt p kvs "tags"
  · constructor
    · intro hnone
      constructor
      · apply vfm_dict_count
        · simp only [requiredFieldErrors, REQUIRED_FIELDS, appendMap, List.append_nil,
            List.count_append]
          rw [count_slot_missing_self p kvs "inclusion" PyType.strT hnone,
              count_slot_ne p kvs "title" PyType.strT "inclusion" (by decide),
              count_slot_ne p kvs "description" PyType.strT "inclusion" (by decide),
              count_slot_ne p kvs "category" PyType.strT "inclusion" (by decide),
              count_slot_ne p kvs "tags" PyType.listT "inclusion" (by decide)]
        · exact cat_count_zero p kvs _ (by simp [mkErr])
        · exact incl_count_zero p kvs _ (by simp [mkErr])
        · exact tags_count_zero p kvs _ ⟨by simp [mkErr], by simp [mkErr], by simp [mkErr]⟩
        · exact opt_count_zero p kvs _ (by simp [mkErr])
      · apply vfm_dict_all
        · simp only [requiredFieldErrors, REQUIRED_FIELDS, appendMap, List.append_nil,
            List.all_append, Bool.and_eq_true]
          refine ⟨?_, ?_, ?_, ?_, ?_⟩
          · exact all_q1_reqslot p kvs "inclusion" "title" PyType.strT (by decide) (by decide)
          · exact all_q1_reqslot p kvs "inclusion" "description" PyType.strT (by decide) (by decide)
          · exact all_q1_reqslot p kvs "inclusion" "category" PyType.strT (by decide) (by decide)
          · exact all_q1_reqslot p kvs "inclusion" "tags" PyType.listT (by decide) (by decide)
          · exact all_q1_selfslot p kvs "inclusion" PyType.strT hnone
        · exact all_q1_cat p kvs "inclusion"
        · exact all_q1_incl p kvs "inclusion"
        · exact all_q1_tags p kvs "inclusion"
        · simp only [optionalFieldErrors, OPTIONAL_FIELDS, appendMap, List.append_nil,
            List.all_append, Bool.and_eq_true]
          refine ⟨?_, ?_, ?_, ?_, ?_⟩
          · exact all_q1_optslot p kvs "inclusion" "author" PyType.strT (by decide) (by decide)
          · exact all_q1_optslot p kvs "inclusion" "version" PyType.strT (by decide) (by decide)
          · exact all_q1_optslot p kvs "inclusion" "kiro_version" PyType.strT (by decide) (by decide)
          · exact all_q1_optslot p kvs "inclusion" "dependencies" PyType.listT (by decide) (by decide)
          · exact all_q1_optslot p kvs "inclusion" "file_references" PyType.listT (by decide) (by decide)
    · intro hsome hty
      constructor
      · apply vfm_dict_mem_req
        exact mem_appendMap.mpr ⟨("inclusion", PyType.strT), by simp [REQUIRED_FIELDS],
          mem_slot_typeErr p kvs "inclusion" PyType.strT v hsome hty⟩
      · apply vfm_dict_all
        · simp only [requiredFieldErrors, REQUIRED_FIELDS, appendMap, List.append_nil,
            List.all_append, Bool.and_eq_true]
          refine ⟨?_, ?_, ?_, ?_, ?_⟩
          · exact all_q2_reqslot p kvs "inclusion" "title" PyType.strT (by decide)
          · exact all_q2_reqslot p kvs "inclusion" "description" PyType.strT (by decide)
          · exact all_q2_reqslot p kvs "inclusion" "category" PyType.strT (by decide)
          · exact all_q2_reqslot p kvs "inclusion" "tags" PyType.listT (by decide)
          · exact all_q2_typeslot p kvs "inclusion" PyType.strT v hsome hty
        · exact all_q2_cat p kvs "inclusion"
        · exact all_q2_incl p kvs "inclusion"
        · exact all_q2_tags p kvs "inclusion"
        · exact all_q2_opt p kvs "inclusion"

/-- Claim C5 (witness: `title` missing from a concrete mapping). -/
theorem C5_witness :
    (validate_frontmatter "p" (.dict [("description", .str "d")])).1.count
        (mkErr "p" "MISSING_REQUIRED_FIELD" (missMsg "title")) = 1 ∧
    (validate_frontmatter "p" (.dict [("description", .str "d")])).1.all
        (fun e => !(e.error_type == "INVALID_FIELD_TYPE" &&
          strPre ("Field '" ++ "title" ++ "'") e.message)) = true :=
  (C5_claim "p" [("description", .str "d")] "title" .strT .null
    (by simp [REQUIRED_FIELDS])).1 rfl
